import Mathlib

/-!
# Touch boost control interface (`drivers/input/touchscreen/touchboost_switch.c`)

A shallow embedding of the three sysfs attributes `touchboost_switch`,
`touchboost_freq` and `touchboost_ms`: their `show` and `store` handlers, the
three external tunables they read and write, and the library routines the
handlers call (`sscanf`, `sprintf`, `cpufreq_frequency_get_table`, `pr_err`).

Conventions.
* An `unsigned int` is a `Nat` below `2 ^ 32`; a value read or printed through
  `%d` is seen as the `int` with the same 32 bits.
* A C string is a `List Char` of its bytes; a NUL byte, like the end of the
  list, ends the string for every routine below.
* The handlers return `ssize_t`; it is an `Int` here, and the conversion of the
  `size_t count` in `return count` is explicit.
* Calls to routines outside the driver are recorded in a trace, in call order.
-/

namespace Touchboost

/-! ## Constants and types from the headers -/

/-- Modelled from the spec: `errno.h` is not under `src/`; `EINVAL` is the
"invalid argument" error number, 22. -/
def EINVAL : Nat := 22

/-- Lower bound of the boost duration, `#define TOUCHBOOST_DURATION_MIN 0`. -/
def TOUCHBOOST_DURATION_MIN : Nat := 0

/-- Upper bound of the boost duration, `#define TOUCHBOOST_DURATION_MAX 10000`. -/
def TOUCHBOOST_DURATION_MAX : Nat := 10000

/-- Number of values of an `unsigned int`, `2 ^ 32`. -/
def UINT_RANGE : Nat := 4294967296

/-- Modelled from the spec: `linux/cpufreq.h` is not under `src/`;
`CPUFREQ_ENTRY_INVALID` is `~0` as an `unsigned int`. -/
def CPUFREQ_ENTRY_INVALID : Nat := 4294967295

/-- Modelled from the spec: `linux/cpufreq.h` is not under `src/`;
`CPUFREQ_TABLE_END` is `~1` as an `unsigned int`. -/
def CPUFREQ_TABLE_END : Nat := 4294967294

/-- Modelled from the spec: `linux/cpufreq.h` is not under `src/`; one row of a
frequency table, `struct cpufreq_frequency_table`. -/
structure cpufreq_frequency_table where
  index : Nat
  frequency : Nat
deriving DecidableEq

/-- The three tunables, `extern unsigned int input_boost_status`,
`input_boost_freq` and `input_boost_ms`. -/
structure Globals where
  input_boost_status : Nat
  input_boost_freq : Nat
  input_boost_ms : Nat
deriving DecidableEq

/-- A call that leaves the driver. -/
inductive Event where
  | get_table (cpu : Nat)
  | pr_err (msg : String)
  | pr_debug (msg : String)
deriving DecidableEq

/-! ## Machine integers -/

/-- The `int` that has the same 32 bits as the `unsigned int` `x`. -/
def int_of_uint (x : Nat) : Int :=
  if x % UINT_RANGE < 2147483648 then ((x % UINT_RANGE : Nat) : Int)
  else ((x % UINT_RANGE : Nat) : Int) - 4294967296

/-- The `unsigned int` that has the same 32 bits as the integer `v`
(its value modulo `2 ^ 32`). -/
def uint_of_int (v : Int) : Nat := (v % 4294967296).toNat

/-- The `ssize_t` a `size_t` converts to in `return count`: the same value up
to `SSIZE_MAX`, the wrapped (negative) value above. The width of `ssize_t` is
not fixed by the driver, so `SSIZE_MAX` is a parameter. -/
def ssize_of_size (SSIZE_MAX count : Nat) : Int :=
  if count ≤ SSIZE_MAX then (count : Int) else (count : Int) - (2 * (SSIZE_MAX : Int) + 2)

/-! ## `sscanf (buf, "%d", &val)` -/

/-- White space of the kernel's `isspace`: bytes 9 to 13, 32 and 160. -/
def isspace (c : Char) : Bool :=
  (9 ≤ c.toNat && c.toNat ≤ 13) || c.toNat == 32 || c.toNat == 160

/-- Decimal digits, `isdigit`. -/
def isdigit (c : Char) : Bool := 48 ≤ c.toNat && c.toNat ≤ 57

/-- Drop leading white space, `skip_spaces`. -/
def skip_spaces : List Char → List Char
  | [] => []
  | c :: cs => if isspace c then skip_spaces cs else c :: cs

/-- Read decimal digits from the front of the string into `res`, stopping at
the first byte that is not a digit (`simple_strtoull` in base 10). The kernel
accumulates in 64 bits and never reports overflow; the exact value is kept here
and reduced when it is stored. -/
def simple_strtoull (res : Nat) : List Char → Nat
  | [] => res
  | c :: cs => if isdigit c then simple_strtoull (res * 10 + (c.toNat - 48)) cs else res

/-- Modelled from the spec: the kernel's `sscanf` (`lib/vsprintf.c`) is not
under `src/`. This is `sscanf (buf, "%d", &val)`: skip white space, accept an
optional `-`, demand a digit, read the digits, and store the result as an `int`
through the pointer (so `val` receives the value modulo `2 ^ 32`). The first
component is the number of conversions made (0 or 1); when it is 0 the
variable keeps its old value `val`. -/
def sscanf_d (buf : List Char) (val : Nat) : Nat × Nat :=
  match skip_spaces buf with
  | [] => (0, val)
  | c :: cs =>
    if c = '-' then
      match cs with
      | [] => (0, val)
      | d :: _ =>
        if isdigit d then (1, uint_of_int (-(simple_strtoull 0 cs : Int))) else (0, val)
    else if isdigit c then (1, uint_of_int (simple_strtoull 0 (c :: cs) : Int))
    else (0, val)

/-! ## `sprintf (buf, "... %d ...", x)` -/

/-- The character of a decimal digit. -/
def digit_char (d : Nat) : Char := Char.ofNat (48 + d)

/-- Decimal digits of `n`, most significant first; `fuel` bounds the number of
digits. -/
def put_dec : Nat → Nat → List Char
  | 0, _ => []
  | fuel + 1, n => if n < 10 then [digit_char n] else put_dec fuel (n / 10) ++ [digit_char (n % 10)]

/-- Decimal text of a natural number. -/
def decimal (n : Nat) : List Char := put_dec (n + 1) n

/-- Decimal text of an integer, with a leading `-` when negative. -/
def number (v : Int) : List Char :=
  if v < 0 then '-' :: decimal v.natAbs else decimal v.toNat

/-- Modelled from the spec: the kernel's `sprintf` is not under `src/`. This is
the text `%d` produces for the `unsigned int` argument `x`: the decimal text of
the `int` with the same bits. -/
def sprintf_d (x : Nat) : List Char := number (int_of_uint x)

/-! ## The handlers -/

/-- Outcome of a `show` handler: the returned length, the text written to
`buf`, and the tunables after the call. -/
structure ShowResult where
  ret : Int
  buf : List Char
  globals : Globals
deriving DecidableEq

/-- Outcome of a `store` handler: the returned `ssize_t`, the tunables after
the call, and the calls made outside the driver. -/
structure StoreResult where
  ret : Int
  globals : Globals
  trace : List Event
deriving DecidableEq

/-- The handler `touchboost_switch_show`:
`return sprintf(buf, "Touchboost status: %d", input_boost_status);` -/
def touchboost_switch_show (g : Globals) : ShowResult :=
  let text := "Touchboost status: ".toList ++ sprintf_d g.input_boost_status
  ShowResult.mk (text.length : Nat) text g

/-- The handler `touchboost_switch_store`. The initial `ret = -EINVAL` is
overwritten by the result of `sscanf` before it is read. -/
def touchboost_switch_store (SSIZE_MAX : Nat) (g : Globals) (buf : List Char) (count : Nat) :
    StoreResult :=
  let scanned := sscanf_d buf 0
  let ret := scanned.1
  let val := scanned.2
  if ret ≠ 1 then
    StoreResult.mk (-(EINVAL : Int)) g []
  else if val ≠ 0 ∧ val ≠ 1 then
    StoreResult.mk (-(EINVAL : Int)) g
      [Event.pr_err "Touchboost switch: invalid touchboost status.\n"]
  else
    StoreResult.mk (ssize_of_size SSIZE_MAX count)
      (Globals.mk val g.input_boost_freq g.input_boost_ms) []

/-- The handler `touchboost_freq_show`:
`return sprintf(buf, "%d - Touchboost frequency\n", input_boost_freq);` -/
def touchboost_freq_show (g : Globals) : ShowResult :=
  let text := sprintf_d g.input_boost_freq ++ " - Touchboost frequency\n".toList
  ShowResult.mk (text.length : Nat) text g

/-- How the scan of the frequency table ends, with the index `i` it ends at. -/
inductive Scan where
  | found (i : Nat)
  | table_end (i : Nat)
  | out_of_bounds (i : Nat)
deriving DecidableEq

/-- The loop of `touchboost_freq_store`,
`for (i = 0; table[i].frequency != CPUFREQ_TABLE_END; i++) if (table[i].frequency == input) ...`,
entered with index `i` and the rows from `table[i]` on. The table is an array
of finitely many rows: reading the row after the last one is a read outside the
array, which C leaves undefined. -/
def freq_scan (input : Nat) : List cpufreq_frequency_table → Nat → Scan
  | [], i => Scan.out_of_bounds i
  | row :: rows, i =>
    if row.frequency = CPUFREQ_TABLE_END then Scan.table_end i
    else if row.frequency = input then Scan.found i
    else freq_scan input rows (i + 1)

/-- The handler `touchboost_freq_store`. `table` is what
`cpufreq_frequency_get_table(0)` returns when it is called: `none` for a NULL
pointer. The result is `none` when the loop reads outside the table. -/
def touchboost_freq_store (SSIZE_MAX : Nat) (table : Option (List cpufreq_frequency_table))
    (g : Globals) (buf : List Char) (count : Nat) : Option StoreResult :=
  let scanned := sscanf_d buf 0
  let ret := scanned.1
  let input := scanned.2
  if ret ≠ 1 then
    some (StoreResult.mk (-(EINVAL : Int)) g [])
  else
    match table with
    | none =>
      some (StoreResult.mk (-(EINVAL : Int)) g
        [Event.get_table 0, Event.pr_err "Touchboost switch: could not retrieve cpu freq table"])
    | some rows =>
      match freq_scan input rows 0 with
      | Scan.found _ =>
        some (StoreResult.mk (ssize_of_size SSIZE_MAX count)
          (Globals.mk g.input_boost_status input g.input_boost_ms)
          [Event.get_table 0, Event.pr_debug "Touchboost switch: frequency for touch boost found"])
      | Scan.table_end _ =>
        some (StoreResult.mk (-(EINVAL : Int)) g
          [Event.get_table 0, Event.pr_err "Touchboost switch: invalid frequency requested"])
      | Scan.out_of_bounds _ => none

/-- The handler `touchboost_ms_show`:
`return sprintf(buf, "%d - Touchboost impulse length (ms)\n", input_boost_ms);` -/
def touchboost_ms_show (g : Globals) : ShowResult :=
  let text := sprintf_d g.input_boost_ms ++ " - Touchboost impulse length (ms)\n".toList
  ShowResult.mk (text.length : Nat) text g

/-- The handler `touchboost_ms_store`. Both comparisons are between
`unsigned int` values. -/
def touchboost_ms_store (SSIZE_MAX : Nat) (g : Globals) (buf : List Char) (count : Nat) :
    StoreResult :=
  let scanned := sscanf_d buf 0
  let ret := scanned.1
  let input := scanned.2
  if ret ≠ 1 then
    StoreResult.mk (-(EINVAL : Int)) g []
  else if input < TOUCHBOOST_DURATION_MIN ∨ input > TOUCHBOOST_DURATION_MAX then
    StoreResult.mk (-(EINVAL : Int)) g
      [Event.pr_err "Touchboost switch: invalid duration value requested"]
  else
    StoreResult.mk (ssize_of_size SSIZE_MAX count)
      (Globals.mk g.input_boost_status g.input_boost_freq input) []

/-! ## Sequences of calls -/

/-- One call of one of the six handlers, with its arguments; a call of
`touchboost_freq_store` carries the table the cpufreq core would hand out at
that moment. -/
inductive Call where
  | switch_show
  | switch_store (buf : List Char) (count : Nat)
  | freq_show
  | freq_store (table : Option (List cpufreq_frequency_table)) (buf : List Char) (count : Nat)
  | ms_show
  | ms_store (buf : List Char) (count : Nat)

/-- The tunables after one call; `none` when the call reads outside a table. -/
def call (SSIZE_MAX : Nat) (g : Globals) : Call → Option Globals
  | Call.switch_show => some (touchboost_switch_show g).globals
  | Call.switch_store buf count => some (touchboost_switch_store SSIZE_MAX g buf count).globals
  | Call.freq_show => some (touchboost_freq_show g).globals
  | Call.freq_store table buf count =>
    (touchboost_freq_store SSIZE_MAX table g buf count).map StoreResult.globals
  | Call.ms_show => some (touchboost_ms_show g).globals
  | Call.ms_store buf count => some (touchboost_ms_store SSIZE_MAX g buf count).globals

/-- The tunables after a sequence of calls, made one after the other. -/
def run (SSIZE_MAX : Nat) (g : Globals) : List Call → Option Globals
  | [] => some g
  | c :: cs =>
    match call SSIZE_MAX g c with
    | none => none
    | some g1 => run SSIZE_MAX g1 cs

/-! ## The validation rules, as the specification words them -/

/-- The legal levels of a table: the frequencies of the rows before the first
end-of-table marker, in table order. -/
def legal_levels : List cpufreq_frequency_table → List Nat
  | [] => []
  | row :: rows =>
    if row.frequency = CPUFREQ_TABLE_END then [] else row.frequency :: legal_levels rows

/-- A table is terminated when one of its rows carries the end-of-table marker. -/
def terminated (rows : List cpufreq_frequency_table) : Prop :=
  ∃ row ∈ rows, row.frequency = CPUFREQ_TABLE_END

instance (rows : List cpufreq_frequency_table) : Decidable (terminated rows) := by
  unfold terminated
  infer_instance

/-- The value a write to boost-enabled commits: the payload parses to an
integer and the integer is 0 or 1. `none` when the write is rejected. -/
def switch_accepted (buf : List Char) : Option Nat :=
  if (sscanf_d buf 0).1 = 1 ∧ ((sscanf_d buf 0).2 = 0 ∨ (sscanf_d buf 0).2 = 1) then
    some (sscanf_d buf 0).2
  else none

/-- The value a write to boost-level commits: the table can be retrieved, the
payload parses to an integer and the integer is one of the legal levels.
`none` when the write is rejected. -/
def freq_accepted (table : Option (List cpufreq_frequency_table)) (buf : List Char) :
    Option Nat :=
  match table with
  | none => none
  | some rows =>
    if (sscanf_d buf 0).1 = 1 ∧ (sscanf_d buf 0).2 ∈ legal_levels rows then
      some (sscanf_d buf 0).2
    else none

/-- The value a write to boost-duration-ms commits: the payload parses to a
signed integer between 0 and 10000, bounds included. `none` when the write is
rejected. -/
def ms_accepted (buf : List Char) : Option Nat :=
  if (sscanf_d buf 0).1 = 1 ∧ 0 ≤ int_of_uint (sscanf_d buf 0).2 ∧
      int_of_uint (sscanf_d buf 0).2 ≤ 10000 then
    some (sscanf_d buf 0).2
  else none

/-- The value a call commits to `input_boost_status`, if it is an accepted write
to boost-enabled. -/
def accepted_status : Call → Option Nat
  | Call.switch_store buf _ => switch_accepted buf
  | _ => none

/-- The value a call commits to `input_boost_freq`, if it is an accepted write
to boost-level. -/
def accepted_freq : Call → Option Nat
  | Call.freq_store table buf _ => freq_accepted table buf
  | _ => none

/-- The value a call commits to `input_boost_ms`, if it is an accepted write to
boost-duration-ms. -/
def accepted_ms : Call → Option Nat
  | Call.ms_store buf _ => ms_accepted buf
  | _ => none

/-- The value of the last accepted write among the calls `cs`, as selected by
`f`, or the initial value `init` when no write was accepted. -/
def last_accepted (f : Call → Option Nat) (init : Nat) (cs : List Call) : Nat :=
  ((cs.filterMap f).getLast?).getD init

/-- The domain of the store: boost-enabled is 0 or 1 and the duration is at most
10000 ms. -/
def domain_ok (g : Globals) : Prop :=
  (g.input_boost_status = 0 ∨ g.input_boost_status = 1) ∧
    g.input_boost_ms ≤ TOUCHBOOST_DURATION_MAX

instance (g : Globals) : Decidable (domain_ok g) := by
  unfold domain_ok
  infer_instance

/-- A call hands a well-formed table to the driver: an available table is
terminated. -/
def well_formed : Call → Prop
  | Call.freq_store (some rows) _ _ => terminated rows
  | _ => True

/-- The text of the three attributes, as the three `show` handlers print it. -/
def read_all (g : Globals) : List (List Char) :=
  [(touchboost_switch_show g).buf, (touchboost_freq_show g).buf, (touchboost_ms_show g).buf]

/-! ## The scan, index by index -/

/-- The indices at which the loop of `touchboost_freq_store` reads
`table[i].frequency`, in the order of the reads, when it is entered with index
`i` and the rows from `table[i]` on. The last index is the one the loop ends
at; with no row left it is the index of a read outside the array. -/
def freq_scan_reads (input : Nat) : List cpufreq_frequency_table → Nat → List Nat
  | [], i => [i]
  | row :: rows, i =>
    if row.frequency = CPUFREQ_TABLE_END then [i]
    else if row.frequency = input then [i]
    else i :: freq_scan_reads input rows (i + 1)

/-! ## Driver initialisation -/

/-- A call that leaves the driver during `touchboost_switch_init`, with the
value it returns where it returns one. -/
inductive InitEvent where
  | misc_register (ret : Int)
  | sysfs_create_group (ret : Int)
  | pr_err (msg : String)
  | pr_info (msg : String)
deriving DecidableEq

/-- Outcome of `touchboost_switch_init`: the returned `int` and the calls made
outside the driver. -/
structure InitResult where
  ret : Int
  trace : List InitEvent
deriving DecidableEq

/-- The function `touchboost_switch_init`. `misc_register_ret` and
`sysfs_create_group_ret` are what `misc_register` and `sysfs_create_group`
return; the first is dropped by the driver. -/
def touchboost_switch_init (misc_register_ret sysfs_create_group_ret : Int) : InitResult :=
  if sysfs_create_group_ret < 0 then
    InitResult.mk 0
      [InitEvent.misc_register misc_register_ret,
        InitEvent.sysfs_create_group sysfs_create_group_ret,
        InitEvent.pr_err "Touchboost switch: failed to create touchboost switch sys fs object.\n"]
  else
    InitResult.mk 0
      [InitEvent.misc_register misc_register_ret,
        InitEvent.sysfs_create_group sysfs_create_group_ret,
        InitEvent.pr_info "Touchboost switch: device initialized\n"]

/-! ## Facts about the integer conversions -/

theorem uint_of_int_lt (v : Int) : uint_of_int v < 4294967296 := by
  unfold uint_of_int
  have h1 : 0 ≤ v % 4294967296 := Int.emod_nonneg v (by norm_num)
  have h2 : v % 4294967296 < 4294967296 := Int.emod_lt_of_pos v (by norm_num)
  omega

theorem uint_of_int_natCast (n : Nat) : uint_of_int (n : Int) = n % 4294967296 := by
  unfold uint_of_int
  omega

theorem int_of_uint_of_lt (x : Nat) (h : x < 2147483648) : int_of_uint x = (x : Int) := by
  unfold int_of_uint UINT_RANGE
  have : x % 4294967296 = x := Nat.mod_eq_of_lt (by omega)
  rw [this, if_pos h]

theorem int_of_uint_of_ge (x : Nat) (h1 : 2147483648 ≤ x) (h2 : x < 4294967296) :
    int_of_uint x = (x : Int) - 4294967296 := by
  unfold int_of_uint UINT_RANGE
  have : x % 4294967296 = x := Nat.mod_eq_of_lt h2
  rw [this, if_neg (by omega)]

theorem uint_of_int_of_uint (x : Nat) (h : x < 4294967296) : uint_of_int (int_of_uint x) = x := by
  by_cases hx : x < 2147483648
  · rw [int_of_uint_of_lt x hx, uint_of_int_natCast]
    exact Nat.mod_eq_of_lt h
  · rw [int_of_uint_of_ge x (by omega) h]
    unfold uint_of_int
    omega

theorem int_of_uint_nonneg_iff (x : Nat) (h : x < 4294967296) :
    0 ≤ int_of_uint x ↔ x < 2147483648 := by
  by_cases hx : x < 2147483648
  · rw [int_of_uint_of_lt x hx]
    omega
  · rw [int_of_uint_of_ge x (by omega) h]
    omega

theorem int_of_uint_duration (x : Nat) (h : x < 4294967296) :
    (0 ≤ int_of_uint x ∧ int_of_uint x ≤ 10000) ↔ x ≤ 10000 := by
  by_cases hx : x < 2147483648
  · rw [int_of_uint_of_lt x hx]
    omega
  · rw [int_of_uint_of_ge x (by omega) h]
    omega

theorem int_of_uint_boolean (x : Nat) (h : x < 4294967296) :
    (int_of_uint x = 0 ∨ int_of_uint x = 1) ↔ (x = 0 ∨ x = 1) := by
  by_cases hx : x < 2147483648
  · rw [int_of_uint_of_lt x hx]
    omega
  · rw [int_of_uint_of_ge x (by omega) h]
    omega

theorem ssize_of_size_of_le (SSIZE_MAX count : Nat) (h : count ≤ SSIZE_MAX) :
    ssize_of_size SSIZE_MAX count = (count : Int) := by
  unfold ssize_of_size
  rw [if_pos h]

theorem ssize_of_size_nonneg (SSIZE_MAX count : Nat) (h : count ≤ SSIZE_MAX) :
    0 ≤ ssize_of_size SSIZE_MAX count := by
  rw [ssize_of_size_of_le SSIZE_MAX count h]
  omega

theorem neg_EINVAL_neg : -(EINVAL : Int) < 0 := by
  unfold EINVAL
  omega

/-! ## Facts about `sscanf` and `sprintf` -/

theorem sscanf_d_ret (buf : List Char) (val : Nat) :
    (sscanf_d buf val).1 = 0 ∨ (sscanf_d buf val).1 = 1 := by
  unfold sscanf_d
  split
  · simp
  · split_ifs
    · split
      · simp
      · split_ifs <;> simp
    · simp
    · simp

theorem sscanf_d_val_lt (buf : List Char) (val : Nat) (h : val < 4294967296) :
    (sscanf_d buf val).2 < 4294967296 := by
  unfold sscanf_d
  split
  · simpa using h
  · split_ifs
    · split
      · simpa using h
      · split_ifs
        · exact uint_of_int_lt _
        · simpa using h
    · simpa using uint_of_int_lt _
    · simpa using h

theorem digit_char_props (d : Nat) (h : d < 10) :
    isdigit (digit_char d) = true ∧ isspace (digit_char d) = false ∧
      digit_char d ≠ '-' ∧ (digit_char d).toNat - 48 = d := by
  interval_cases d <;> decide

theorem simple_strtoull_digit (res d : Nat) (h : d < 10) (rest : List Char) :
    simple_strtoull res (digit_char d :: rest) = simple_strtoull (res * 10 + d) rest := by
  obtain ⟨h1, _, _, h4⟩ := digit_char_props d h
  simp only [simple_strtoull, h1, h4, if_true]

theorem simple_strtoull_put_dec (fuel : Nat) :
    ∀ (n : Nat), n < fuel → ∀ (res : Nat) (rest : List Char),
      simple_strtoull res (put_dec fuel n ++ rest)
        = simple_strtoull (res * 10 ^ (put_dec fuel n).length + n) rest := by
  induction fuel with
  | zero => intro n h; omega
  | succ fuel ih =>
    intro n hn res rest
    unfold put_dec
    by_cases h10 : n < 10
    · simp only [h10, if_true, List.singleton_append, List.length_singleton, pow_one]
      exact simple_strtoull_digit res n h10 rest
    · simp only [h10, if_false, List.append_assoc, List.singleton_append, List.length_append,
        List.length_singleton]
      have hdiv : n / 10 < fuel := by omega
      rw [ih (n / 10) hdiv res, simple_strtoull_digit _ (n % 10) (Nat.mod_lt n (by norm_num))]
      congr 1
      rw [pow_succ]
      have := Nat.div_add_mod n 10
      nlinarith [Nat.div_add_mod n 10]

theorem simple_strtoull_decimal (n : Nat) : simple_strtoull 0 (decimal n) = n := by
  have h := simple_strtoull_put_dec (n + 1) n (Nat.lt_succ_self n) 0 []
  simp only [List.append_nil, zero_mul, zero_add, simple_strtoull] at h
  exact h

theorem put_dec_head (fuel : Nat) :
    ∀ (n : Nat), ∃ d cs, d < 10 ∧ put_dec (fuel + 1) n = digit_char d :: cs := by
  induction fuel with
  | zero =>
    intro n
    unfold put_dec
    by_cases h10 : n < 10
    · exact ⟨n, [], h10, by simp [h10]⟩
    · exact ⟨n % 10, [], Nat.mod_lt n (by norm_num), by simp [h10, put_dec]⟩
  | succ fuel ih =>
    intro n
    by_cases h10 : n < 10
    · exact ⟨n, [], h10, by rw [put_dec]; simp [h10]⟩
    · obtain ⟨d, cs, hd, hcs⟩ := ih (n / 10)
      refine ⟨d, cs ++ [digit_char (n % 10)], hd, ?_⟩
      rw [put_dec]
      simp only [h10, if_false, hcs, List.cons_append]

theorem decimal_head (n : Nat) : ∃ d cs, d < 10 ∧ decimal n = digit_char d :: cs :=
  put_dec_head n n

/-- Scanning the decimal text of a natural number stores that number modulo
`2 ^ 32`. -/
theorem sscanf_d_decimal (n val : Nat) : sscanf_d (decimal n) val = (1, n % 4294967296) := by
  obtain ⟨d, cs, hd, hcs⟩ := decimal_head n
  obtain ⟨h1, h2, h3, _⟩ := digit_char_props d hd
  have hval := simple_strtoull_decimal n
  rw [hcs] at hval
  unfold sscanf_d
  rw [hcs]
  simp only [skip_spaces, h2, h3, h1, if_true, if_false, Bool.false_eq_true, hval,
    uint_of_int_natCast]

/-- Scanning the text `%d` prints for an integer stores that integer modulo
`2 ^ 32`. -/
theorem sscanf_d_number (v : Int) (val : Nat) : sscanf_d (number v) val = (1, uint_of_int v) := by
  unfold number
  by_cases hv : v < 0
  · obtain ⟨d, cs, hd, hcs⟩ := decimal_head v.natAbs
    obtain ⟨h1, _, _, _⟩ := digit_char_props d hd
    have hval := simple_strtoull_decimal v.natAbs
    rw [hcs] at hval
    rw [if_pos hv, hcs]
    unfold sscanf_d
    have hsp : isspace '-' = false := by decide
    simp only [skip_spaces, hsp, if_true, if_false, Bool.false_eq_true, h1, hval]
    congr 2
    omega
  · rw [if_neg hv, sscanf_d_decimal, ← uint_of_int_natCast]
    congr 2
    omega

/-! ## Facts about the scan of the frequency table -/

theorem not_mem_legal_levels_end (rows : List cpufreq_frequency_table) :
    CPUFREQ_TABLE_END ∉ legal_levels rows := by
  induction rows with
  | nil => simp [legal_levels]
  | cons row rows ih =>
    unfold legal_levels
    by_cases h : row.frequency = CPUFREQ_TABLE_END
    · simp [h]
    · simp only [h, if_false, List.mem_cons, not_or]
      exact ⟨fun h2 => h h2.symm, ih⟩

theorem freq_scan_of_mem (v : Nat) :
    ∀ (rows : List cpufreq_frequency_table) (i : Nat), v ∈ legal_levels rows →
      ∃ j, freq_scan v rows i = Scan.found j := by
  intro rows
  induction rows with
  | nil => intro i h; simp [legal_levels] at h
  | cons row rows ih =>
    intro i h
    unfold legal_levels at h
    unfold freq_scan
    by_cases hend : row.frequency = CPUFREQ_TABLE_END
    · simp [hend] at h
    · simp only [hend, if_false, List.mem_cons] at h ⊢
      by_cases hv : row.frequency = v
      · exact ⟨i, by simp [hv]⟩
      · simp only [hv, if_false]
        rcases h with h | h
        · exact absurd h.symm hv
        · exact ih (i + 1) h

theorem freq_scan_of_not_mem (v : Nat) :
    ∀ (rows : List cpufreq_frequency_table) (i : Nat), v ∉ legal_levels rows →
      terminated rows → ∃ j, freq_scan v rows i = Scan.table_end j := by
  intro rows
  induction rows with
  | nil =>
    intro i _ ht
    obtain ⟨row, hrow, _⟩ := ht
    simp at hrow
  | cons row rows ih =>
    intro i h ht
    unfold legal_levels at h
    unfold freq_scan
    by_cases hend : row.frequency = CPUFREQ_TABLE_END
    · exact ⟨i, by simp [hend]⟩
    · simp only [hend, if_false, List.mem_cons, not_or] at h ⊢
      have hv : ¬ row.frequency = v := fun h2 => h.1 h2.symm
      simp only [hv, if_false]
      refine ih (i + 1) h.2 ?_
      obtain ⟨r, hr, hre⟩ := ht
      rcases List.mem_cons.mp hr with h3 | h3
      · exact absurd (h3 ▸ hre) hend
      · exact ⟨r, h3, hre⟩

theorem freq_scan_of_unterminated (v : Nat) :
    ∀ (rows : List cpufreq_frequency_table) (i : Nat), v ∉ legal_levels rows →
      ¬ terminated rows → ∃ j, freq_scan v rows i = Scan.out_of_bounds j := by
  intro rows
  induction rows with
  | nil => intro i _ _; exact ⟨i, rfl⟩
  | cons row rows ih =>
    intro i h ht
    unfold legal_levels at h
    unfold freq_scan
    by_cases hend : row.frequency = CPUFREQ_TABLE_END
    · exact absurd ⟨row, List.mem_cons_self _ _, hend⟩ ht
    · simp only [hend, if_false, List.mem_cons, not_or] at h ⊢
      have hv : ¬ row.frequency = v := fun h2 => h.1 h2.symm
      simp only [hv, if_false]
      refine ih (i + 1) h.2 ?_
      intro ⟨r, hr, hre⟩
      exact ht ⟨r, List.mem_cons_of_mem _ hr, hre⟩

/-! ## The paths through the three `store` handlers -/

theorem switch_store_malformed (M : Nat) (g : Globals) (buf : List Char) (count : Nat)
    (h : (sscanf_d buf 0).1 ≠ 1) :
    touchboost_switch_store M g buf count = StoreResult.mk (-(EINVAL : Int)) g [] := by
  unfold touchboost_switch_store
  simp only [h, ne_eq, not_false_eq_true, if_true]

theorem switch_store_invalid (M : Nat) (g : Globals) (buf : List Char) (count : Nat)
    (h1 : (sscanf_d buf 0).1 = 1) (h2 : (sscanf_d buf 0).2 ≠ 0 ∧ (sscanf_d buf 0).2 ≠ 1) :
    touchboost_switch_store M g buf count = StoreResult.mk (-(EINVAL : Int)) g
      [Event.pr_err "Touchboost switch: invalid touchboost status.\n"] := by
  unfold touchboost_switch_store
  simp only [h1, ne_eq, not_true_eq_false, if_false, h2, not_false_eq_true, and_self, if_true]

theorem switch_store_accept (M : Nat) (g : Globals) (buf : List Char) (count : Nat)
    (h1 : (sscanf_d buf 0).1 = 1) (h2 : (sscanf_d buf 0).2 = 0 ∨ (sscanf_d buf 0).2 = 1) :
    touchboost_switch_store M g buf count = StoreResult.mk (ssize_of_size M count)
      (Globals.mk (sscanf_d buf 0).2 g.input_boost_freq g.input_boost_ms) [] := by
  unfold touchboost_switch_store
  have h3 : ¬ ((sscanf_d buf 0).2 ≠ 0 ∧ (sscanf_d buf 0).2 ≠ 1) := by
    rcases h2 with h | h <;> simp [h]
  simp only [h1, ne_eq, not_true_eq_false, if_false, h3]

theorem ms_store_malformed (M : Nat) (g : Globals) (buf : List Char) (count : Nat)
    (h : (sscanf_d buf 0).1 ≠ 1) :
    touchboost_ms_store M g buf count = StoreResult.mk (-(EINVAL : Int)) g [] := by
  unfold touchboost_ms_store
  simp only [h, ne_eq, not_false_eq_true, if_true]

theorem ms_store_invalid (M : Nat) (g : Globals) (buf : List Char) (count : Nat)
    (h1 : (sscanf_d buf 0).1 = 1) (h2 : 10000 < (sscanf_d buf 0).2) :
    touchboost_ms_store M g buf count = StoreResult.mk (-(EINVAL : Int)) g
      [Event.pr_err "Touchboost switch: invalid duration value requested"] := by
  unfold touchboost_ms_store
  have h3 : (sscanf_d buf 0).2 < TOUCHBOOST_DURATION_MIN ∨
      (sscanf_d buf 0).2 > TOUCHBOOST_DURATION_MAX := Or.inr h2
  simp only [h1, ne_eq, not_true_eq_false, if_false, h3, if_true]

theorem ms_store_accept (M : Nat) (g : Globals) (buf : List Char) (count : Nat)
    (h1 : (sscanf_d buf 0).1 = 1) (h2 : (sscanf_d buf 0).2 ≤ 10000) :
    touchboost_ms_store M g buf count = StoreResult.mk (ssize_of_size M count)
      (Globals.mk g.input_boost_status g.input_boost_freq (sscanf_d buf 0).2) [] := by
  unfold touchboost_ms_store
  have h3 : ¬ ((sscanf_d buf 0).2 < TOUCHBOOST_DURATION_MIN ∨
      (sscanf_d buf 0).2 > TOUCHBOOST_DURATION_MAX) := by
    unfold TOUCHBOOST_DURATION_MIN TOUCHBOOST_DURATION_MAX
    omega
  simp only [h1, ne_eq, not_true_eq_false, if_false, h3]

theorem freq_store_malformed (M : Nat) (table : Option (List cpufreq_frequency_table))
    (g : Globals) (buf : List Char) (count : Nat) (h : (sscanf_d buf 0).1 ≠ 1) :
    touchboost_freq_store M table g buf count = some (StoreResult.mk (-(EINVAL : Int)) g []) := by
  unfold touchboost_freq_store
  simp only [h, ne_eq, not_false_eq_true, if_true]

theorem freq_store_unavailable (M : Nat) (g : Globals) (buf : List Char) (count : Nat)
    (h : (sscanf_d buf 0).1 = 1) :
    touchboost_freq_store M none g buf count = some (StoreResult.mk (-(EINVAL : Int)) g
      [Event.get_table 0,
        Event.pr_err "Touchboost switch: could not retrieve cpu freq table"]) := by
  unfold touchboost_freq_store
  simp only [h, ne_eq, not_true_eq_false, if_false]

theorem freq_store_accept (M : Nat) (rows : List cpufreq_frequency_table) (g : Globals)
    (buf : List Char) (count : Nat) (h1 : (sscanf_d buf 0).1 = 1)
    (h2 : (sscanf_d buf 0).2 ∈ legal_levels rows) :
    touchboost_freq_store M (some rows) g buf count = some (StoreResult.mk (ssize_of_size M count)
      (Globals.mk g.input_boost_status (sscanf_d buf 0).2 g.input_boost_ms)
      [Event.get_table 0,
        Event.pr_debug "Touchboost switch: frequency for touch boost found"]) := by
  obtain ⟨j, hj⟩ := freq_scan_of_mem _ rows 0 h2
  unfold touchboost_freq_store
  simp only [h1, ne_eq, not_true_eq_false, if_false, hj]

theorem freq_store_invalid (M : Nat) (rows : List cpufreq_frequency_table) (g : Globals)
    (buf : List Char) (count : Nat) (h1 : (sscanf_d buf 0).1 = 1)
    (h2 : (sscanf_d buf 0).2 ∉ legal_levels rows) (h3 : terminated rows) :
    touchboost_freq_store M (some rows) g buf count = some (StoreResult.mk (-(EINVAL : Int)) g
      [Event.get_table 0, Event.pr_err "Touchboost switch: invalid frequency requested"]) := by
  obtain ⟨j, hj⟩ := freq_scan_of_not_mem _ rows 0 h2 h3
  unfold touchboost_freq_store
  simp only [h1, ne_eq, not_true_eq_false, if_false, hj]

theorem freq_store_fault (M : Nat) (rows : List cpufreq_frequency_table) (g : Globals)
    (buf : List Char) (count : Nat) (h1 : (sscanf_d buf 0).1 = 1)
    (h2 : (sscanf_d buf 0).2 ∉ legal_levels rows) (h3 : ¬ terminated rows) :
    touchboost_freq_store M (some rows) g buf count = none := by
  obtain ⟨j, hj⟩ := freq_scan_of_unterminated _ rows 0 h2 h3
  unfold touchboost_freq_store
  simp only [h1, ne_eq, not_true_eq_false, if_false, hj]

/-! ## The handlers against the validation rules -/

theorem switch_store_of_accepted (M : Nat) (g : Globals) (buf : List Char) (count v : Nat)
    (h : switch_accepted buf = some v) :
    touchboost_switch_store M g buf count = StoreResult.mk (ssize_of_size M count)
      (Globals.mk v g.input_boost_freq g.input_boost_ms) [] ∧ (v = 0 ∨ v = 1) := by
  unfold switch_accepted at h
  split_ifs at h with hc
  cases h
  exact ⟨switch_store_accept M g buf count hc.1 hc.2, hc.2⟩

theorem switch_store_of_rejected (M : Nat) (g : Globals) (buf : List Char) (count : Nat)
    (h : switch_accepted buf = none) :
    (touchboost_switch_store M g buf count).ret = -(EINVAL : Int) ∧
      (touchboost_switch_store M g buf count).globals = g := by
  unfold switch_accepted at h
  by_cases h1 : (sscanf_d buf 0).1 = 1
  · by_cases h2 : (sscanf_d buf 0).2 = 0 ∨ (sscanf_d buf 0).2 = 1
    · simp [h1, h2] at h
    · rw [switch_store_invalid M g buf count h1 (by omega)]
      exact ⟨rfl, rfl⟩
  · rw [switch_store_malformed M g buf count h1]
    exact ⟨rfl, rfl⟩

theorem ms_store_of_accepted (M : Nat) (g : Globals) (buf : List Char) (count v : Nat)
    (h : ms_accepted buf = some v) :
    touchboost_ms_store M g buf count = StoreResult.mk (ssize_of_size M count)
      (Globals.mk g.input_boost_status g.input_boost_freq v) [] ∧ v ≤ 10000 := by
  have hlt := sscanf_d_val_lt buf 0 (by norm_num)
  unfold ms_accepted at h
  split_ifs at h with hc
  cases h
  have hle := (int_of_uint_duration _ hlt).mp hc.2
  exact ⟨ms_store_accept M g buf count hc.1 hle, hle⟩

theorem ms_store_of_rejected (M : Nat) (g : Globals) (buf : List Char) (count : Nat)
    (h : ms_accepted buf = none) :
    (touchboost_ms_store M g buf count).ret = -(EINVAL : Int) ∧
      (touchboost_ms_store M g buf count).globals = g := by
  have hlt := sscanf_d_val_lt buf 0 (by norm_num)
  unfold ms_accepted at h
  by_cases h1 : (sscanf_d buf 0).1 = 1
  · by_cases h2 : (sscanf_d buf 0).2 ≤ 10000
    · have h3 := (int_of_uint_duration _ hlt).mpr h2
      simp [h1, h3] at h
    · rw [ms_store_invalid M g buf count h1 (by omega)]
      exact ⟨rfl, rfl⟩
  · rw [ms_store_malformed M g buf count h1]
    exact ⟨rfl, rfl⟩

theorem freq_store_of_accepted (M : Nat) (table : Option (List cpufreq_frequency_table))
    (g : Globals) (buf : List Char) (count v : Nat) (h : freq_accepted table buf = some v) :
    touchboost_freq_store M table g buf count = some (StoreResult.mk (ssize_of_size M count)
      (Globals.mk g.input_boost_status v g.input_boost_ms)
      [Event.get_table 0,
        Event.pr_debug "Touchboost switch: frequency for touch boost found"]) := by
  cases table with
  | none => simp [freq_accepted] at h
  | some rows =>
    simp only [freq_accepted] at h
    split_ifs at h with hc
    cases h
    exact freq_store_accept M rows g buf count hc.1 hc.2

theorem freq_store_of_rejected (M : Nat) (table : Option (List cpufreq_frequency_table))
    (g : Globals) (buf : List Char) (count : Nat) (h : freq_accepted table buf = none)
    (r : StoreResult) (hr : touchboost_freq_store M table g buf count = some r) :
    r.ret = -(EINVAL : Int) ∧ r.globals = g := by
  by_cases h1 : (sscanf_d buf 0).1 = 1
  · cases table with
    | none =>
      rw [freq_store_unavailable M g buf count h1] at hr
      cases hr
      exact ⟨rfl, rfl⟩
    | some rows =>
      by_cases h2 : (sscanf_d buf 0).2 ∈ legal_levels rows
      · simp [freq_accepted, h1, h2] at h
      · by_cases h3 : terminated rows
        · rw [freq_store_invalid M rows g buf count h1 h2 h3] at hr
          cases hr
          exact ⟨rfl, rfl⟩
        · rw [freq_store_fault M rows g buf count h1 h2 h3] at hr
          cases hr
  · rw [freq_store_malformed M table g buf count h1] at hr
    cases hr
    exact ⟨rfl, rfl⟩

theorem freq_store_returns (M : Nat) (table : Option (List cpufreq_frequency_table))
    (g : Globals) (buf : List Char) (count : Nat)
    (hterm : ∀ rows, table = some rows → terminated rows) :
    ∃ r, touchboost_freq_store M table g buf count = some r := by
  by_cases h1 : (sscanf_d buf 0).1 = 1
  · cases table with
    | none => exact ⟨_, freq_store_unavailable M g buf count h1⟩
    | some rows =>
      by_cases h2 : (sscanf_d buf 0).2 ∈ legal_levels rows
      · exact ⟨_, freq_store_accept M rows g buf count h1 h2⟩
      · exact ⟨_, freq_store_invalid M rows g buf count h1 h2 (hterm rows rfl)⟩
  · exact ⟨_, freq_store_malformed M table g buf count h1⟩

/-! ## Writing a number and reading it back -/

theorem sprintf_d_of_lt (v : Nat) (h : v < 2147483648) : sprintf_d v = decimal v := by
  unfold sprintf_d number
  rw [int_of_uint_of_lt v h, if_neg (by omega)]
  rfl

theorem sprintf_d_of_ge (v : Nat) (h1 : 2147483648 ≤ v) (h2 : v < 4294967296) :
    sprintf_d v = '-' :: decimal (4294967296 - v) := by
  unfold sprintf_d number
  rw [int_of_uint_of_ge v h1 h2, if_pos (by omega)]
  congr 2
  omega

theorem decimal_ne_minus (n m : Nat) (rest1 rest2 : List Char) :
    decimal n ++ rest1 ≠ ('-' :: decimal m) ++ rest2 := by
  obtain ⟨d, cs, hd, hcs⟩ := decimal_head n
  obtain ⟨_, _, h3, _⟩ := digit_char_props d hd
  rw [hcs]
  intro h
  simp only [List.cons_append, List.cons.injEq] at h
  exact h3 h.1

/-- Round trip through `touchboost_switch`: the decimal text of 0 or 1 is
accepted and the attribute then reads `Touchboost status: ` followed by it. -/
theorem switch_round_trip (M : Nat) (g : Globals) (count v : Nat) (hv : v = 0 ∨ v = 1) :
    touchboost_switch_store M g (decimal v) count
      = StoreResult.mk (ssize_of_size M count)
          (Globals.mk v g.input_boost_freq g.input_boost_ms) [] ∧
    (touchboost_switch_show (touchboost_switch_store M g (decimal v) count).globals).buf
      = "Touchboost status: ".toList ++ decimal v := by
  have hparse := sscanf_d_decimal v 0
  have hmod : v % 4294967296 = v := Nat.mod_eq_of_lt (by omega)
  rw [hmod] at hparse
  have hst := switch_store_accept M g (decimal v) count (by rw [hparse]) (by rw [hparse]; exact hv)
  rw [hparse] at hst
  refine ⟨hst, ?_⟩
  rw [hst]
  simp only [touchboost_switch_show, sprintf_d_of_lt v (by omega)]

/-- Round trip through `touchboost_ms`: the decimal text of a duration up to
10000 is accepted and the attribute then reads it, followed by the label. -/
theorem ms_round_trip (M : Nat) (g : Globals) (count v : Nat) (hv : v ≤ 10000) :
    touchboost_ms_store M g (decimal v) count
      = StoreResult.mk (ssize_of_size M count)
          (Globals.mk g.input_boost_status g.input_boost_freq v) [] ∧
    (touchboost_ms_show (touchboost_ms_store M g (decimal v) count).globals).buf
      = decimal v ++ " - Touchboost impulse length (ms)\n".toList := by
  have hparse := sscanf_d_decimal v 0
  have hmod : v % 4294967296 = v := Nat.mod_eq_of_lt (by omega)
  rw [hmod] at hparse
  have hst := ms_store_accept M g (decimal v) count (by rw [hparse]) (by rw [hparse]; exact hv)
  rw [hparse] at hst
  refine ⟨hst, ?_⟩
  rw [hst]
  simp only [touchboost_ms_show, sprintf_d_of_lt v (by omega)]

/-- Writing the decimal text of a legal level below `2 ^ 32` to
`touchboost_freq` is accepted and commits the level. -/
theorem freq_write_of_legal (M : Nat) (rows : List cpufreq_frequency_table) (g : Globals)
    (count v : Nat) (hv : v ∈ legal_levels rows) (hlt : v < 4294967296) :
    touchboost_freq_store M (some rows) g (decimal v) count
      = some (StoreResult.mk (ssize_of_size M count)
          (Globals.mk g.input_boost_status v g.input_boost_ms)
          [Event.get_table 0,
            Event.pr_debug "Touchboost switch: frequency for touch boost found"]) := by
  have hparse := sscanf_d_decimal v 0
  have hmod : v % 4294967296 = v := Nat.mod_eq_of_lt hlt
  rw [hmod] at hparse
  have hst := freq_store_accept M rows g (decimal v) count (by rw [hparse])
    (by rw [hparse]; exact hv)
  rw [hparse] at hst
  exact hst

/-- Round trip through `touchboost_freq` for a legal level below `2 ^ 31`: the
attribute reads the level, followed by the label. -/
theorem freq_round_trip_below_int_max (g : Globals) (v : Nat) (hlt : v < 2147483648) :
    (touchboost_freq_show (Globals.mk g.input_boost_status v g.input_boost_ms)).buf
      = decimal v ++ " - Touchboost frequency\n".toList := by
  simp only [touchboost_freq_show, sprintf_d_of_lt v hlt]

/-- No round trip through `touchboost_freq` for a level from `2 ^ 31` on: the
attribute reads the level minus `2 ^ 32`, a negative number. -/
theorem freq_round_trip_from_int_max (g : Globals) (v : Nat) (h1 : 2147483648 ≤ v)
    (h2 : v < 4294967296) :
    (touchboost_freq_show (Globals.mk g.input_boost_status v g.input_boost_ms)).buf
      = ('-' :: decimal (4294967296 - v)) ++ " - Touchboost frequency\n".toList ∧
    (touchboost_freq_show (Globals.mk g.input_boost_status v g.input_boost_ms)).buf
      ≠ decimal v ++ " - Touchboost frequency\n".toList := by
  have h : (touchboost_freq_show (Globals.mk g.input_boost_status v g.input_boost_ms)).buf
      = ('-' :: decimal (4294967296 - v)) ++ " - Touchboost frequency\n".toList := by
    simp only [touchboost_freq_show, sprintf_d_of_ge v h1 h2]
  refine ⟨h, ?_⟩
  rw [h]
  exact (decimal_ne_minus v (4294967296 - v) _ _).symm

/-! ## Sequences of calls -/

theorem last_accepted_nil (f : Call → Option Nat) (init : Nat) :
    last_accepted f init [] = init := rfl

theorem last_accepted_cons (f : Call → Option Nat) (init : Nat) (c : Call) (cs : List Call) :
    last_accepted f init (c :: cs) = last_accepted f ((f c).getD init) cs := by
  unfold last_accepted
  cases hf : f c with
  | none => simp [List.filterMap_cons, hf]
  | some v =>
    simp only [List.filterMap_cons, hf, List.getLast?_cons, Option.getD_some]

/-- One call: each tunable afterwards holds the value the call commits to it,
if it is an accepted write to that tunable, and its old value otherwise. -/
theorem call_commits (M : Nat) (g g1 : Globals) (c : Call) (h : call M g c = some g1) :
    g1.input_boost_status = (accepted_status c).getD g.input_boost_status ∧
    g1.input_boost_freq = (accepted_freq c).getD g.input_boost_freq ∧
    g1.input_boost_ms = (accepted_ms c).getD g.input_boost_ms ∧
    (domain_ok g → domain_ok g1) := by
  cases c with
  | switch_show => cases h; exact ⟨rfl, rfl, rfl, id⟩
  | freq_show => cases h; exact ⟨rfl, rfl, rfl, id⟩
  | ms_show => cases h; exact ⟨rfl, rfl, rfl, id⟩
  | switch_store buf count =>
    simp only [call, Option.some.injEq] at h
    subst h
    simp only [accepted_status, accepted_freq, accepted_ms, Option.getD_none]
    cases hacc : switch_accepted buf with
    | none =>
      rw [(switch_store_of_rejected M g buf count hacc).2]
      exact ⟨rfl, rfl, rfl, id⟩
    | some v =>
      obtain ⟨hst, hv⟩ := switch_store_of_accepted M g buf count v hacc
      rw [hst]
      exact ⟨rfl, rfl, rfl, fun hd => ⟨hv, hd.2⟩⟩
  | ms_store buf count =>
    simp only [call, Option.some.injEq] at h
    subst h
    simp only [accepted_status, accepted_freq, accepted_ms, Option.getD_none]
    cases hacc : ms_accepted buf with
    | none =>
      rw [(ms_store_of_rejected M g buf count hacc).2]
      exact ⟨rfl, rfl, rfl, id⟩
    | some v =>
      obtain ⟨hst, hv⟩ := ms_store_of_accepted M g buf count v hacc
      rw [hst]
      exact ⟨rfl, rfl, rfl, fun hd => ⟨hd.1, hv⟩⟩
  | freq_store table buf count =>
    simp only [call, Option.map_eq_some'] at h
    obtain ⟨r, hr, hg⟩ := h
    subst hg
    simp only [accepted_status, accepted_freq, accepted_ms, Option.getD_none]
    cases hacc : freq_accepted table buf with
    | none =>
      rw [(freq_store_of_rejected M table g buf count hacc r hr).2]
      exact ⟨rfl, rfl, rfl, id⟩
    | some v =>
      rw [freq_store_of_accepted M table g buf count v hacc] at hr
      cases hr
      exact ⟨rfl, rfl, rfl, fun hd => ⟨hd.1, hd.2⟩⟩

theorem call_returns (M : Nat) (g : Globals) (c : Call) (h : well_formed c) :
    ∃ g1, call M g c = some g1 := by
  cases c with
  | switch_show => exact ⟨_, rfl⟩
  | freq_show => exact ⟨_, rfl⟩
  | ms_show => exact ⟨_, rfl⟩
  | switch_store buf count => exact ⟨_, rfl⟩
  | ms_store buf count => exact ⟨_, rfl⟩
  | freq_store table buf count =>
    have hterm : ∀ rows, table = some rows → terminated rows := by
      intro rows ht
      subst ht
      exact h
    obtain ⟨r, hr⟩ := freq_store_returns M table g buf count hterm
    exact ⟨r.globals, by simp only [call, hr, Option.map_some']⟩

theorem run_commits (M : Nat) (cs : List Call) :
    ∀ (g g1 : Globals), run M g cs = some g1 →
      g1.input_boost_status = last_accepted accepted_status g.input_boost_status cs ∧
      g1.input_boost_freq = last_accepted accepted_freq g.input_boost_freq cs ∧
      g1.input_boost_ms = last_accepted accepted_ms g.input_boost_ms cs ∧
      (domain_ok g → domain_ok g1) := by
  induction cs with
  | nil =>
    intro g g1 h
    simp only [run, Option.some.injEq] at h
    subst h
    exact ⟨rfl, rfl, rfl, id⟩
  | cons c cs ih =>
    intro g g1 h
    simp only [run] at h
    cases hc : call M g c with
    | none => rw [hc] at h; cases h
    | some g2 =>
      rw [hc] at h
      obtain ⟨h1, h2, h3, h4⟩ := call_commits M g g2 c hc
      obtain ⟨i1, i2, i3, i4⟩ := ih g2 g1 h
      simp only [last_accepted_cons]
      rw [← h1, ← h2, ← h3]
      exact ⟨i1, i2, i3, fun hd => i4 (h4 hd)⟩

theorem run_returns (M : Nat) (cs : List Call) :
    ∀ (g : Globals), (∀ c ∈ cs, well_formed c) → ∃ g1, run M g cs = some g1 := by
  induction cs with
  | nil => intro g _; exact ⟨g, rfl⟩
  | cons c cs ih =>
    intro g hwf
    obtain ⟨g2, hc⟩ := call_returns M g c (hwf c (List.mem_cons_self _ _))
    obtain ⟨g1, hrun⟩ := ih g2 (fun c1 hc1 => hwf c1 (List.mem_cons_of_mem _ hc1))
    exact ⟨g1, by simp only [run, hc, hrun]⟩

/-! ## The claims -/

/-- C1: a write that a `store` handler answers with a failure leaves the three
tunables as they were, so the three attributes read as before. `count` is the
length of a payload held in memory, hence at most `SSIZE_MAX`, and for such a
count a negative result is a failure. For every count at all, a write the
field's rule rejects returns `-EINVAL` and changes nothing. An unavailable
table is `none`. -/
theorem rejected_write_keeps_tunables (SSIZE_MAX : Nat) (g : Globals) (buf : List Char)
    (count : Nat) (table : Option (List cpufreq_frequency_table)) :
    (count ≤ SSIZE_MAX →
      ((touchboost_switch_store SSIZE_MAX g buf count).ret < 0 →
        (touchboost_switch_store SSIZE_MAX g buf count).globals = g ∧
        read_all (touchboost_switch_store SSIZE_MAX g buf count).globals = read_all g) ∧
      (∀ r, touchboost_freq_store SSIZE_MAX table g buf count = some r → r.ret < 0 →
        r.globals = g ∧ read_all r.globals = read_all g) ∧
      ((touchboost_ms_store SSIZE_MAX g buf count).ret < 0 →
        (touchboost_ms_store SSIZE_MAX g buf count).globals = g ∧
        read_all (touchboost_ms_store SSIZE_MAX g buf count).globals = read_all g)) ∧
    (switch_accepted buf = none →
      (touchboost_switch_store SSIZE_MAX g buf count).ret = -(EINVAL : Int) ∧
      (touchboost_switch_store SSIZE_MAX g buf count).globals = g) ∧
    (freq_accepted table buf = none →
      ∀ r, touchboost_freq_store SSIZE_MAX table g buf count = some r →
        r.ret = -(EINVAL : Int) ∧ r.globals = g) ∧
    (ms_accepted buf = none →
      (touchboost_ms_store SSIZE_MAX g buf count).ret = -(EINVAL : Int) ∧
      (touchboost_ms_store SSIZE_MAX g buf count).globals = g) := by
  have hlt := sscanf_d_val_lt buf 0 (by norm_num)
  refine ⟨fun hcount => ⟨?_, ?_, ?_⟩, ?_, ?_, ?_⟩
  · intro hneg
    by_cases h1 : (sscanf_d buf 0).1 = 1
    · by_cases h2 : (sscanf_d buf 0).2 = 0 ∨ (sscanf_d buf 0).2 = 1
      · rw [switch_store_accept SSIZE_MAX g buf count h1 h2] at hneg
        have := ssize_of_size_nonneg SSIZE_MAX count hcount
        simp only at hneg
        omega
      · rw [switch_store_invalid SSIZE_MAX g buf count h1 (by omega)]
        exact ⟨rfl, rfl⟩
    · rw [switch_store_malformed SSIZE_MAX g buf count h1]
      exact ⟨rfl, rfl⟩
  · intro r hr hneg
    by_cases h1 : (sscanf_d buf 0).1 = 1
    · cases table with
      | none =>
        rw [freq_store_unavailable SSIZE_MAX g buf count h1] at hr
        cases hr
        exact ⟨rfl, rfl⟩
      | some rows =>
        by_cases h2 : (sscanf_d buf 0).2 ∈ legal_levels rows
        · rw [freq_store_accept SSIZE_MAX rows g buf count h1 h2] at hr
          cases hr
          have := ssize_of_size_nonneg SSIZE_MAX count hcount
          simp only at hneg
          omega
        · by_cases h3 : terminated rows
          · rw [freq_store_invalid SSIZE_MAX rows g buf count h1 h2 h3] at hr
            cases hr
            exact ⟨rfl, rfl⟩
          · rw [freq_store_fault SSIZE_MAX rows g buf count h1 h2 h3] at hr
            cases hr
    · rw [freq_store_malformed SSIZE_MAX table g buf count h1] at hr
      cases hr
      exact ⟨rfl, rfl⟩
  · intro hneg
    by_cases h1 : (sscanf_d buf 0).1 = 1
    · by_cases h2 : (sscanf_d buf 0).2 ≤ 10000
      · rw [ms_store_accept SSIZE_MAX g buf count h1 h2] at hneg
        have := ssize_of_size_nonneg SSIZE_MAX count hcount
        simp only at hneg
        omega
      · rw [ms_store_invalid SSIZE_MAX g buf count h1 (by omega)]
        exact ⟨rfl, rfl⟩
    · rw [ms_store_malformed SSIZE_MAX g buf count h1]
      exact ⟨rfl, rfl⟩
  · intro hrej
    unfold switch_accepted at hrej
    by_cases h1 : (sscanf_d buf 0).1 = 1
    · by_cases h2 : (sscanf_d buf 0).2 = 0 ∨ (sscanf_d buf 0).2 = 1
      · simp [h1, h2] at hrej
      · rw [switch_store_invalid SSIZE_MAX g buf count h1 (by omega)]
        exact ⟨rfl, rfl⟩
    · rw [switch_store_malformed SSIZE_MAX g buf count h1]
      exact ⟨rfl, rfl⟩
  · intro hrej r hr
    by_cases h1 : (sscanf_d buf 0).1 = 1
    · cases table with
      | none =>
        rw [freq_store_unavailable SSIZE_MAX g buf count h1] at hr
        cases hr
        exact ⟨rfl, rfl⟩
      | some rows =>
        by_cases h2 : (sscanf_d buf 0).2 ∈ legal_levels rows
        · simp [freq_accepted, h1, h2] at hrej
        · by_cases h3 : terminated rows
          · rw [freq_store_invalid SSIZE_MAX rows g buf count h1 h2 h3] at hr
            cases hr
            exact ⟨rfl, rfl⟩
          · rw [freq_store_fault SSIZE_MAX rows g buf count h1 h2 h3] at hr
            cases hr
    · rw [freq_store_malformed SSIZE_MAX table g buf count h1] at hr
      cases hr
      exact ⟨rfl, rfl⟩
  · intro hrej
    unfold ms_accepted at hrej
    by_cases h1 : (sscanf_d buf 0).1 = 1
    · by_cases h2 : (sscanf_d buf 0).2 ≤ 10000
      · have h3 := (int_of_uint_duration _ hlt).mpr h2
        simp [h1, h3] at hrej
      · rw [ms_store_invalid SSIZE_MAX g buf count h1 (by omega)]
        exact ⟨rfl, rfl⟩
    · rw [ms_store_malformed SSIZE_MAX g buf count h1]
      exact ⟨rfl, rfl⟩

/-- Witness for C1: the payload `2` written to `touchboost_switch` is answered
with a negative result and the tunables stay `(1, 600000, 40)`. -/
theorem rejected_write_keeps_tunables_witness :
    (1 : Nat) ≤ 2147483647 ∧
    (touchboost_switch_store 2147483647 (Globals.mk 1 600000 40) ['2'] 1).ret < 0 ∧
    (touchboost_switch_store 2147483647 (Globals.mk 1 600000 40) ['2'] 1).globals
      = Globals.mk 1 600000 40 :=
  ⟨by decide, by decide,
    (((rejected_write_keeps_tunables 2147483647 (Globals.mk 1 600000 40) ['2'] 1 none).1
      (by decide)).1 (by decide)).1⟩

/-- C3: level membership. With an available table and a payload that parses
to the value `v` held in `input`, `touchboost_freq_store` accepts the write
exactly when `v` is the frequency of a row before the first end-of-table
marker, and then `input_boost_freq` is `v`; on a terminated table any other
value is answered with `-EINVAL` and the invalid-frequency message. With the
levels 300000, 600000 and 900000, writing 600000 is accepted and writing 650000
is rejected. -/
theorem freq_store_level_membership :
    (∀ (SSIZE_MAX : Nat) (rows : List cpufreq_frequency_table) (g : Globals) (buf : List Char)
        (count v : Nat), sscanf_d buf 0 = (1, v) →
      (v ∈ legal_levels rows →
        touchboost_freq_store SSIZE_MAX (some rows) g buf count
          = some (StoreResult.mk (ssize_of_size SSIZE_MAX count)
              (Globals.mk g.input_boost_status v g.input_boost_ms)
              [Event.get_table 0,
                Event.pr_debug "Touchboost switch: frequency for touch boost found"])) ∧
      (terminated rows → v ∉ legal_levels rows →
        touchboost_freq_store SSIZE_MAX (some rows) g buf count
          = some (StoreResult.mk (-(EINVAL : Int)) g
              [Event.get_table 0,
                Event.pr_err "Touchboost switch: invalid frequency requested"])) ∧
      (count ≤ SSIZE_MAX →
        ((∃ r, touchboost_freq_store SSIZE_MAX (some rows) g buf count = some r ∧ 0 ≤ r.ret ∧
            r.globals.input_boost_freq = v)
          ↔ v ∈ legal_levels rows))) ∧
    (∀ (SSIZE_MAX : Nat) (g : Globals) (count : Nat),
      touchboost_freq_store SSIZE_MAX
          (some [cpufreq_frequency_table.mk 0 300000, cpufreq_frequency_table.mk 1 600000,
            cpufreq_frequency_table.mk 2 900000, cpufreq_frequency_table.mk 3 CPUFREQ_TABLE_END])
          g "600000".toList count
        = some (StoreResult.mk (ssize_of_size SSIZE_MAX count)
            (Globals.mk g.input_boost_status 600000 g.input_boost_ms)
            [Event.get_table 0,
              Event.pr_debug "Touchboost switch: frequency for touch boost found"])) ∧
    (∀ (SSIZE_MAX : Nat) (g : Globals) (count : Nat),
      touchboost_freq_store SSIZE_MAX
          (some [cpufreq_frequency_table.mk 0 300000, cpufreq_frequency_table.mk 1 600000,
            cpufreq_frequency_table.mk 2 900000, cpufreq_frequency_table.mk 3 CPUFREQ_TABLE_END])
          g "650000".toList count
        = some (StoreResult.mk (-(EINVAL : Int)) g
            [Event.get_table 0,
              Event.pr_err "Touchboost switch: invalid frequency requested"])) := by
  refine ⟨?_, ?_, ?_⟩
  · intro M rows g buf count v hparse
    have h1 : (sscanf_d buf 0).1 = 1 := by rw [hparse]
    have h2 : (sscanf_d buf 0).2 = v := by rw [hparse]
    refine ⟨?_, ?_, ?_⟩
    · intro hmem
      have := freq_store_accept M rows g buf count h1 (h2 ▸ hmem)
      rw [h2] at this
      exact this
    · intro hterm hnot
      exact freq_store_invalid M rows g buf count h1 (h2 ▸ hnot) hterm
    · intro hcount
      constructor
      · rintro ⟨r, hr, hret, _⟩
        by_contra hnot
        by_cases hterm : terminated rows
        · rw [freq_store_invalid M rows g buf count h1 (h2 ▸ hnot) hterm] at hr
          cases hr
          have := neg_EINVAL_neg
          simp only at hret
          omega
        · rw [freq_store_fault M rows g buf count h1 (h2 ▸ hnot) hterm] at hr
          cases hr
      · intro hmem
        refine ⟨_, freq_store_accept M rows g buf count h1 (h2 ▸ hmem), ?_, h2⟩
        exact ssize_of_size_nonneg M count hcount
  · intro M g count
    exact freq_store_accept M _ g "600000".toList count (by decide) (by decide)
  · intro M g count
    exact freq_store_invalid M _ g "650000".toList count (by decide) (by decide) (by decide)

/-- Witness for C3: the payload `900000` parses to 900000, a level of the
table, and is accepted. -/
theorem freq_store_level_membership_witness :
    sscanf_d "900000".toList 0 = (1, 900000) ∧
    (900000 : Nat) ∈ legal_levels [cpufreq_frequency_table.mk 0 300000,
      cpufreq_frequency_table.mk 1 900000, cpufreq_frequency_table.mk 2 CPUFREQ_TABLE_END] ∧
    touchboost_freq_store 2147483647 (some [cpufreq_frequency_table.mk 0 300000,
      cpufreq_frequency_table.mk 1 900000, cpufreq_frequency_table.mk 2 CPUFREQ_TABLE_END])
        (Globals.mk 1 300000 40) "900000".toList 6
      = some (StoreResult.mk (ssize_of_size 2147483647 6) (Globals.mk 1 900000 40)
          [Event.get_table 0,
            Event.pr_debug "Touchboost switch: frequency for touch boost found"]) :=
  ⟨by decide, by decide,
    (freq_store_level_membership.1 2147483647 _ (Globals.mk 1 300000 40) "900000".toList 6
      900000 (by decide)).1 (by decide)⟩

/-- C4: duration bounds. A payload that parses to the signed integer `v` is
accepted by `touchboost_ms_store` exactly when `0 ≤ v ≤ 10000`, and then
`input_boost_ms` is `v`; any other `v` is answered with `-EINVAL` and the
invalid-duration message. The payloads `0` and `10000` are accepted, `-1` and
`10001` are rejected. -/
theorem ms_store_duration_bounds :
    (∀ (SSIZE_MAX : Nat) (g : Globals) (buf : List Char) (count val : Nat),
      sscanf_d buf 0 = (1, val) →
      ((0 ≤ int_of_uint val ∧ int_of_uint val ≤ 10000) →
        touchboost_ms_store SSIZE_MAX g buf count
          = StoreResult.mk (ssize_of_size SSIZE_MAX count)
              (Globals.mk g.input_boost_status g.input_boost_freq val) [] ∧
        ((touchboost_ms_store SSIZE_MAX g buf count).globals.input_boost_ms : Int)
          = int_of_uint val) ∧
      (¬ (0 ≤ int_of_uint val ∧ int_of_uint val ≤ 10000) →
        touchboost_ms_store SSIZE_MAX g buf count
          = StoreResult.mk (-(EINVAL : Int)) g
              [Event.pr_err "Touchboost switch: invalid duration value requested"]) ∧
      (count ≤ SSIZE_MAX →
        (0 ≤ (touchboost_ms_store SSIZE_MAX g buf count).ret
          ↔ (0 ≤ int_of_uint val ∧ int_of_uint val ≤ 10000)))) ∧
    (∀ (SSIZE_MAX : Nat) (g : Globals) (count : Nat),
      touchboost_ms_store SSIZE_MAX g "0".toList count
        = StoreResult.mk (ssize_of_size SSIZE_MAX count)
            (Globals.mk g.input_boost_status g.input_boost_freq 0) [] ∧
      touchboost_ms_store SSIZE_MAX g "10000".toList count
        = StoreResult.mk (ssize_of_size SSIZE_MAX count)
            (Globals.mk g.input_boost_status g.input_boost_freq 10000) [] ∧
      touchboost_ms_store SSIZE_MAX g "-1".toList count
        = StoreResult.mk (-(EINVAL : Int)) g
            [Event.pr_err "Touchboost switch: invalid duration value requested"] ∧
      touchboost_ms_store SSIZE_MAX g "10001".toList count
        = StoreResult.mk (-(EINVAL : Int)) g
            [Event.pr_err "Touchboost switch: invalid duration value requested"]) := by
  refine ⟨?_, ?_⟩
  · intro M g buf count val hparse
    have h1 : (sscanf_d buf 0).1 = 1 := by rw [hparse]
    have h2 : (sscanf_d buf 0).2 = val := by rw [hparse]
    have hlt : val < 4294967296 := h2 ▸ sscanf_d_val_lt buf 0 (by norm_num)
    have hdom := int_of_uint_duration val hlt
    have hacc : val ≤ 10000 → touchboost_ms_store M g buf count
        = StoreResult.mk (ssize_of_size M count)
            (Globals.mk g.input_boost_status g.input_boost_freq val) [] := by
      intro hle
      have := ms_store_accept M g buf count h1 (h2 ▸ hle)
      rw [h2] at this
      exact this
    have hrej : ¬ val ≤ 10000 → touchboost_ms_store M g buf count
        = StoreResult.mk (-(EINVAL : Int)) g
            [Event.pr_err "Touchboost switch: invalid duration value requested"] := by
      intro hgt
      exact ms_store_invalid M g buf count h1 (by rw [h2]; omega)
    refine ⟨?_, ?_, ?_⟩
    · intro hv
      have hle := hdom.mp hv
      refine ⟨hacc hle, ?_⟩
      rw [hacc hle, int_of_uint_of_lt val (by omega)]
    · intro hv
      exact hrej (fun hle => hv (hdom.mpr hle))
    · intro hcount
      rw [hdom]
      constructor
      · intro hret
        by_contra hgt
        rw [hrej hgt] at hret
        have := neg_EINVAL_neg
        simp only at hret
        omega
      · intro hle
        rw [hacc hle]
        exact ssize_of_size_nonneg M count hcount
  · intro M g count
    exact ⟨ms_store_accept M g "0".toList count (by decide) (by decide),
      ms_store_accept M g "10000".toList count (by decide) (by decide),
      ms_store_invalid M g "-1".toList count (by decide) (by decide),
      ms_store_invalid M g "10001".toList count (by decide) (by decide)⟩

/-- Witness for C4: the payload `-1` parses to the signed integer -1, which is
below the range, and the write is rejected. -/
theorem ms_store_duration_bounds_witness :
    sscanf_d "-1".toList 0 = (1, 4294967295) ∧ int_of_uint 4294967295 = -1 ∧
    touchboost_ms_store 2147483647 (Globals.mk 1 300000 40) "-1".toList 2
      = StoreResult.mk (-(EINVAL : Int)) (Globals.mk 1 300000 40)
          [Event.pr_err "Touchboost switch: invalid duration value requested"] :=
  ⟨by decide, by decide,
    (ms_store_duration_bounds.1 2147483647 (Globals.mk 1 300000 40) "-1".toList 2 4294967295
      (by decide)).2.1 (by decide)⟩

/-- C5: boolean domain. A payload that parses to the integer `v` is accepted
by `touchboost_switch_store` exactly when `v` is 0 or 1, and then
`input_boost_status` is `v`; any other integer is answered with `-EINVAL` and
the invalid-status message. The payloads `0` and `1` are accepted, `2` and `-1`
are rejected. -/
theorem switch_store_boolean_domain :
    (∀ (SSIZE_MAX : Nat) (g : Globals) (buf : List Char) (count val : Nat),
      sscanf_d buf 0 = (1, val) →
      ((int_of_uint val = 0 ∨ int_of_uint val = 1) →
        touchboost_switch_store SSIZE_MAX g buf count
          = StoreResult.mk (ssize_of_size SSIZE_MAX count)
              (Globals.mk val g.input_boost_freq g.input_boost_ms) [] ∧
        ((touchboost_switch_store SSIZE_MAX g buf count).globals.input_boost_status : Int)
          = int_of_uint val) ∧
      (¬ (int_of_uint val = 0 ∨ int_of_uint val = 1) →
        touchboost_switch_store SSIZE_MAX g buf count
          = StoreResult.mk (-(EINVAL : Int)) g
              [Event.pr_err "Touchboost switch: invalid touchboost status.\n"]) ∧
      (count ≤ SSIZE_MAX →
        (0 ≤ (touchboost_switch_store SSIZE_MAX g buf count).ret
          ↔ (int_of_uint val = 0 ∨ int_of_uint val = 1)))) ∧
    (∀ (SSIZE_MAX : Nat) (g : Globals) (count : Nat),
      touchboost_switch_store SSIZE_MAX g "0".toList count
        = StoreResult.mk (ssize_of_size SSIZE_MAX count)
            (Globals.mk 0 g.input_boost_freq g.input_boost_ms) [] ∧
      touchboost_switch_store SSIZE_MAX g "1".toList count
        = StoreResult.mk (ssize_of_size SSIZE_MAX count)
            (Globals.mk 1 g.input_boost_freq g.input_boost_ms) [] ∧
      touchboost_switch_store SSIZE_MAX g "2".toList count
        = StoreResult.mk (-(EINVAL : Int)) g
            [Event.pr_err "Touchboost switch: invalid touchboost status.\n"] ∧
      touchboost_switch_store SSIZE_MAX g "-1".toList count
        = StoreResult.mk (-(EINVAL : Int)) g
            [Event.pr_err "Touchboost switch: invalid touchboost status.\n"]) := by
  refine ⟨?_, ?_⟩
  · intro M g buf count val hparse
    have h1 : (sscanf_d buf 0).1 = 1 := by rw [hparse]
    have h2 : (sscanf_d buf 0).2 = val := by rw [hparse]
    have hlt : val < 4294967296 := h2 ▸ sscanf_d_val_lt buf 0 (by norm_num)
    have hdom := int_of_uint_boolean val hlt
    have hacc : (val = 0 ∨ val = 1) → touchboost_switch_store M g buf count
        = StoreResult.mk (ssize_of_size M count)
            (Globals.mk val g.input_boost_freq g.input_boost_ms) [] := by
      intro hb
      have := switch_store_accept M g buf count h1 (h2 ▸ hb)
      rw [h2] at this
      exact this
    have hrej : ¬ (val = 0 ∨ val = 1) → touchboost_switch_store M g buf count
        = StoreResult.mk (-(EINVAL : Int)) g
            [Event.pr_err "Touchboost switch: invalid touchboost status.\n"] := by
      intro hb
      exact switch_store_invalid M g buf count h1 (by rw [h2]; omega)
    refine ⟨?_, ?_, ?_⟩
    · intro hv
      have hb := hdom.mp hv
      refine ⟨hacc hb, ?_⟩
      rw [hacc hb, int_of_uint_of_lt val (by omega)]
    · intro hv
      exact hrej (fun hb => hv (hdom.mpr hb))
    · intro hcount
      rw [hdom]
      constructor
      · intro hret
        by_contra hb
        rw [hrej hb] at hret
        have := neg_EINVAL_neg
        simp only at hret
        omega
      · intro hb
        rw [hacc hb]
        exact ssize_of_size_nonneg M count hcount
  · intro M g count
    exact ⟨switch_store_accept M g "0".toList count (by decide) (by decide),
      switch_store_accept M g "1".toList count (by decide) (by decide),
      switch_store_invalid M g "2".toList count (by decide) (by decide),
      switch_store_invalid M g "-1".toList count (by decide) (by decide)⟩

/-- Witness for C5: the payload `1` parses to 1 and switches the boost on. -/
theorem switch_store_boolean_domain_witness :
    sscanf_d "1".toList 0 = (1, 1) ∧ (int_of_uint 1 = 0 ∨ int_of_uint 1 = 1) ∧
    touchboost_switch_store 2147483647 (Globals.mk 0 300000 40) "1".toList 1
      = StoreResult.mk (ssize_of_size 2147483647 1) (Globals.mk 1 300000 40) [] :=
  ⟨by decide, by decide,
    ((switch_store_boolean_domain.1 2147483647 (Globals.mk 0 300000 40) "1".toList 1 1
      (by decide)).1 (by decide)).1⟩

/-- C6: malformed parse. When `sscanf` converts nothing (as for `abc` or the
empty payload), each `store` handler returns `-EINVAL` at once: no tunable
changes and nothing outside the driver is called, so no domain rule is
evaluated and no message is logged; `touchboost_freq_store` does not fetch the
frequency table, whatever table (available or not, terminated or not) the
cpufreq core would hand out. -/
theorem malformed_payload_rejected_before_validation :
    (∀ (SSIZE_MAX : Nat) (g : Globals) (buf : List Char) (count : Nat),
      (sscanf_d buf 0).1 ≠ 1 →
      touchboost_switch_store SSIZE_MAX g buf count = StoreResult.mk (-(EINVAL : Int)) g [] ∧
      (∀ table, touchboost_freq_store SSIZE_MAX table g buf count
          = some (StoreResult.mk (-(EINVAL : Int)) g []) ∧
        ∀ r, touchboost_freq_store SSIZE_MAX table g buf count = some r →
          Event.get_table 0 ∉ r.trace) ∧
      touchboost_ms_store SSIZE_MAX g buf count = StoreResult.mk (-(EINVAL : Int)) g []) ∧
    (sscanf_d "abc".toList 0).1 = 0 ∧ (sscanf_d [] 0).1 = 0 ∧
    (∀ (SSIZE_MAX : Nat) (g : Globals) (count : Nat)
        (table : Option (List cpufreq_frequency_table)),
      touchboost_switch_store SSIZE_MAX g "abc".toList count
        = StoreResult.mk (-(EINVAL : Int)) g [] ∧
      touchboost_freq_store SSIZE_MAX table g "abc".toList count
        = some (StoreResult.mk (-(EINVAL : Int)) g []) ∧
      touchboost_ms_store SSIZE_MAX g "abc".toList count
        = StoreResult.mk (-(EINVAL : Int)) g [] ∧
      touchboost_switch_store SSIZE_MAX g [] count = StoreResult.mk (-(EINVAL : Int)) g [] ∧
      touchboost_freq_store SSIZE_MAX table g [] count
        = some (StoreResult.mk (-(EINVAL : Int)) g []) ∧
      touchboost_ms_store SSIZE_MAX g [] count = StoreResult.mk (-(EINVAL : Int)) g []) := by
  refine ⟨?_, by decide, by decide, ?_⟩
  · intro M g buf count h
    refine ⟨switch_store_malformed M g buf count h, ?_, ms_store_malformed M g buf count h⟩
    intro table
    refine ⟨freq_store_malformed M table g buf count h, ?_⟩
    intro r hr
    rw [freq_store_malformed M table g buf count h] at hr
    cases hr
    simp
  · intro M g count table
    exact ⟨switch_store_malformed M g _ count (by decide),
      freq_store_malformed M table g _ count (by decide),
      ms_store_malformed M g _ count (by decide),
      switch_store_malformed M g _ count (by decide),
      freq_store_malformed M table g _ count (by decide),
      ms_store_malformed M g _ count (by decide)⟩

/-- Witness for C6: the payload `x9` converts nothing; `touchboost_freq_store`
returns `-EINVAL` with an empty trace even for a table without end marker. -/
theorem malformed_payload_rejected_before_validation_witness :
    (sscanf_d "x9".toList 0).1 ≠ 1 ∧
    touchboost_freq_store 2147483647 (some [cpufreq_frequency_table.mk 0 9])
        (Globals.mk 1 300000 40) "x9".toList 2
      = some (StoreResult.mk (-(EINVAL : Int)) (Globals.mk 1 300000 40) []) :=
  ⟨by decide,
    ((malformed_payload_rejected_before_validation.1 2147483647 (Globals.mk 1 300000 40)
      "x9".toList 2 (by decide)).2.1 (some [cpufreq_frequency_table.mk 0 9])).1⟩

/-- C7, as stated, fails: `touchboost_freq_store` answers a malformed payload
(`abc`), an unavailable table, and a value that matches no row (650000) with
the same result, -22; the three codes are not pairwise different, and the code
for an unavailable table is the invalid-value code. -/
theorem freq_store_error_codes_coincide :
    (touchboost_freq_store 2147483647
        (some [cpufreq_frequency_table.mk 0 300000, cpufreq_frequency_table.mk 1 600000,
          cpufreq_frequency_table.mk 2 900000, cpufreq_frequency_table.mk 3 CPUFREQ_TABLE_END])
        (Globals.mk 1 300000 40) "abc".toList 3).map StoreResult.ret = some (-22) ∧
    (touchboost_freq_store 2147483647 none
        (Globals.mk 1 300000 40) "600000".toList 6).map StoreResult.ret = some (-22) ∧
    (touchboost_freq_store 2147483647
        (some [cpufreq_frequency_table.mk 0 300000, cpufreq_frequency_table.mk 1 600000,
          cpufreq_frequency_table.mk 2 900000, cpufreq_frequency_table.mk 3 CPUFREQ_TABLE_END])
        (Globals.mk 1 300000 40) "650000".toList 6).map StoreResult.ret = some (-22) ∧
    ¬ ((touchboost_freq_store 2147483647 none
          (Globals.mk 1 300000 40) "600000".toList 6).map StoreResult.ret
        ≠ (touchboost_freq_store 2147483647
          (some [cpufreq_frequency_table.mk 0 300000, cpufreq_frequency_table.mk 1 600000,
            cpufreq_frequency_table.mk 2 900000,
            cpufreq_frequency_table.mk 3 CPUFREQ_TABLE_END])
          (Globals.mk 1 300000 40) "650000".toList 6).map StoreResult.ret) := by
  decide

/-- C7, amended: the three error kinds of `touchboost_freq_store` are reported
with one and the same code, `-EINVAL`, and no tunable changes. A payload that is
not a parseable integer returns it without any call outside the driver; an
unavailable table returns it after the fetch, with the message that the table
could not be retrieved; a value that matches no row of a terminated table
returns it with the invalid-frequency message. Only the log tells the kinds
apart. -/
theorem freq_store_errors_share_einval (SSIZE_MAX : Nat) (g : Globals) (buf : List Char)
    (count : Nat) :
    ((sscanf_d buf 0).1 ≠ 1 →
      ∀ table, touchboost_freq_store SSIZE_MAX table g buf count
        = some (StoreResult.mk (-(EINVAL : Int)) g [])) ∧
    ((sscanf_d buf 0).1 = 1 →
      touchboost_freq_store SSIZE_MAX none g buf count
        = some (StoreResult.mk (-(EINVAL : Int)) g
            [Event.get_table 0,
              Event.pr_err "Touchboost switch: could not retrieve cpu freq table"])) ∧
    ((sscanf_d buf 0).1 = 1 →
      ∀ rows, terminated rows → (sscanf_d buf 0).2 ∉ legal_levels rows →
        touchboost_freq_store SSIZE_MAX (some rows) g buf count
          = some (StoreResult.mk (-(EINVAL : Int)) g
              [Event.get_table 0,
                Event.pr_err "Touchboost switch: invalid frequency requested"])) ∧
    -(EINVAL : Int) = -22 :=
  ⟨fun h table => freq_store_malformed SSIZE_MAX table g buf count h,
    fun h => freq_store_unavailable SSIZE_MAX g buf count h,
    fun h rows hterm hnot => freq_store_invalid SSIZE_MAX rows g buf count h hnot hterm,
    by decide⟩

/-- Witness for the amended C7: with the table unavailable the parseable
payload `600000` is answered with `-EINVAL`, after the fetch. -/
theorem freq_store_errors_share_einval_witness :
    (sscanf_d "600000".toList 0).1 = 1 ∧
    touchboost_freq_store 2147483647 none (Globals.mk 1 300000 40) "600000".toList 6
      = some (StoreResult.mk (-(EINVAL : Int)) (Globals.mk 1 300000 40)
          [Event.get_table 0,
            Event.pr_err "Touchboost switch: could not retrieve cpu freq table"]) :=
  ⟨by decide,
    (freq_store_errors_share_einval 2147483647 (Globals.mk 1 300000 40) "600000".toList 6).2.1
      (by decide)⟩

/-- C8: what a `store` handler returns. An accepted write returns the byte
count, converted to `ssize_t` (the count itself up to `SSIZE_MAX`), and commits
the value; a rejected write returns the negative code `-EINVAL`. So for
`0 < count ≤ SSIZE_MAX` the result is positive exactly when the value was
committed. `touchboost_freq_store` returns for every unavailable or terminated
table. -/
theorem store_returns_count_or_error (SSIZE_MAX : Nat) (g : Globals) (buf : List Char)
    (count : Nat) (table : Option (List cpufreq_frequency_table)) :
    ((∀ v, switch_accepted buf = some v →
        (touchboost_switch_store SSIZE_MAX g buf count).ret = ssize_of_size SSIZE_MAX count ∧
        (count ≤ SSIZE_MAX → (touchboost_switch_store SSIZE_MAX g buf count).ret = (count : Int)) ∧
        (touchboost_switch_store SSIZE_MAX g buf count).globals
          = Globals.mk v g.input_boost_freq g.input_boost_ms) ∧
      (switch_accepted buf = none →
        (touchboost_switch_store SSIZE_MAX g buf count).ret = -(EINVAL : Int) ∧
        (touchboost_switch_store SSIZE_MAX g buf count).ret < 0) ∧
      (0 < count → count ≤ SSIZE_MAX →
        (0 < (touchboost_switch_store SSIZE_MAX g buf count).ret
          ↔ ∃ v, switch_accepted buf = some v))) ∧
    ((∀ v, freq_accepted table buf = some v →
        ∃ r, touchboost_freq_store SSIZE_MAX table g buf count = some r ∧
          r.ret = ssize_of_size SSIZE_MAX count ∧
          (count ≤ SSIZE_MAX → r.ret = (count : Int)) ∧
          r.globals = Globals.mk g.input_boost_status v g.input_boost_ms) ∧
      (freq_accepted table buf = none →
        ∀ r, touchboost_freq_store SSIZE_MAX table g buf count = some r →
          r.ret = -(EINVAL : Int) ∧ r.ret < 0) ∧
      ((∀ rows, table = some rows → terminated rows) →
        ∃ r, touchboost_freq_store SSIZE_MAX table g buf count = some r) ∧
      (0 < count → count ≤ SSIZE_MAX →
        ((∃ r, touchboost_freq_store SSIZE_MAX table g buf count = some r ∧ 0 < r.ret)
          ↔ ∃ v, freq_accepted table buf = some v))) ∧
    ((∀ v, ms_accepted buf = some v →
        (touchboost_ms_store SSIZE_MAX g buf count).ret = ssize_of_size SSIZE_MAX count ∧
        (count ≤ SSIZE_MAX → (touchboost_ms_store SSIZE_MAX g buf count).ret = (count : Int)) ∧
        (touchboost_ms_store SSIZE_MAX g buf count).globals
          = Globals.mk g.input_boost_status g.input_boost_freq v) ∧
      (ms_accepted buf = none →
        (touchboost_ms_store SSIZE_MAX g buf count).ret = -(EINVAL : Int) ∧
        (touchboost_ms_store SSIZE_MAX g buf count).ret < 0) ∧
      (0 < count → count ≤ SSIZE_MAX →
        (0 < (touchboost_ms_store SSIZE_MAX g buf count).ret
          ↔ ∃ v, ms_accepted buf = some v))) := by
  have hneg := neg_EINVAL_neg
  refine ⟨⟨?_, ?_, ?_⟩, ⟨?_, ?_, ?_, ?_⟩, ⟨?_, ?_, ?_⟩⟩
  · intro v hv
    rw [(switch_store_of_accepted SSIZE_MAX g buf count v hv).1]
    exact ⟨rfl, fun hc => ssize_of_size_of_le SSIZE_MAX count hc, rfl⟩
  · intro hrej
    have h := switch_store_of_rejected SSIZE_MAX g buf count hrej
    exact ⟨h.1, by rw [h.1]; exact hneg⟩
  · intro hpos hcount
    cases hacc : switch_accepted buf with
    | none =>
      have h := switch_store_of_rejected SSIZE_MAX g buf count hacc
      rw [h.1]
      constructor
      · intro h0; omega
      · rintro ⟨v, hv⟩; cases hv
    | some v =>
      rw [(switch_store_of_accepted SSIZE_MAX g buf count v hacc).1]
      simp only [ssize_of_size_of_le SSIZE_MAX count hcount]
      constructor
      · intro _; exact ⟨v, rfl⟩
      · intro _; omega
  · intro v hv
    refine ⟨_, freq_store_of_accepted SSIZE_MAX table g buf count v hv, rfl, ?_, rfl⟩
    intro hc
    exact ssize_of_size_of_le SSIZE_MAX count hc
  · intro hrej r hr
    have h := freq_store_of_rejected SSIZE_MAX table g buf count hrej r hr
    exact ⟨h.1, by rw [h.1]; exact hneg⟩
  · intro hterm
    exact freq_store_returns SSIZE_MAX table g buf count hterm
  · intro hpos hcount
    cases hacc : freq_accepted table buf with
    | none =>
      constructor
      · rintro ⟨r, hr, h0⟩
        have h := freq_store_of_rejected SSIZE_MAX table g buf count hacc r hr
        rw [h.1] at h0
        omega
      · rintro ⟨v, hv⟩; cases hv
    | some v =>
      constructor
      · intro _; exact ⟨v, rfl⟩
      · intro _
        refine ⟨_, freq_store_of_accepted SSIZE_MAX table g buf count v hacc, ?_⟩
        simp only [ssize_of_size_of_le SSIZE_MAX count hcount]
        omega
  · intro v hv
    rw [(ms_store_of_accepted SSIZE_MAX g buf count v hv).1]
    exact ⟨rfl, fun hc => ssize_of_size_of_le SSIZE_MAX count hc, rfl⟩
  · intro hrej
    have h := ms_store_of_rejected SSIZE_MAX g buf count hrej
    exact ⟨h.1, by rw [h.1]; exact hneg⟩
  · intro hpos hcount
    cases hacc : ms_accepted buf with
    | none =>
      have h := ms_store_of_rejected SSIZE_MAX g buf count hacc
      rw [h.1]
      constructor
      · intro h0; omega
      · rintro ⟨v, hv⟩; cases hv
    | some v =>
      rw [(ms_store_of_accepted SSIZE_MAX g buf count v hacc).1]
      simp only [ssize_of_size_of_le SSIZE_MAX count hcount]
      constructor
      · intro _; exact ⟨v, rfl⟩
      · intro _; omega

/-- Witness for C8: the five bytes `2500` and a newline written to
`touchboost_ms` are accepted, 5 is returned and 2500 is committed. -/
theorem store_returns_count_or_error_witness :
    ms_accepted "2500\n".toList = some 2500 ∧ (5 : Nat) ≤ 2147483647 ∧
    (touchboost_ms_store 2147483647 (Globals.mk 1 300000 40) "2500\n".toList 5).ret = 5 ∧
    (touchboost_ms_store 2147483647 (Globals.mk 1 300000 40) "2500\n".toList 5).globals
      = Globals.mk 1 300000 2500 :=
  ⟨by decide, by decide,
    ((store_returns_count_or_error 2147483647 (Globals.mk 1 300000 40) "2500\n".toList 5
      none).2.2.1 2500 (by decide)).2.1 (by decide),
    ((store_returns_count_or_error 2147483647 (Globals.mk 1 300000 40) "2500\n".toList 5
      none).2.2.1 2500 (by decide)).2.2⟩

/-- C2 fails for the level field: the table holds the frequency 3000000000,
the decimal text `3000000000` is accepted and commits 3000000000, and
`touchboost_freq_show` then prints `-1294967296`, because `%d` prints the
`unsigned int` as an `int`. The same happens with the row
`CPUFREQ_ENTRY_INVALID` (4294967295), which reads back as `-1`. -/
theorem freq_round_trip_fails_from_int_max :
    decimal 3000000000 = "3000000000".toList ∧
    (3000000000 : Nat) ∈ legal_levels [cpufreq_frequency_table.mk 0 3000000000,
      cpufreq_frequency_table.mk 1 CPUFREQ_TABLE_END] ∧
    touchboost_freq_store 2147483647
        (some [cpufreq_frequency_table.mk 0 3000000000,
          cpufreq_frequency_table.mk 1 CPUFREQ_TABLE_END])
        (Globals.mk 1 300000 40) (decimal 3000000000) 10
      = some (StoreResult.mk 10 (Globals.mk 1 3000000000 40)
          [Event.get_table 0,
            Event.pr_debug "Touchboost switch: frequency for touch boost found"]) ∧
    (touchboost_freq_show (Globals.mk 1 3000000000 40)).buf
      = "-1294967296 - Touchboost frequency\n".toList ∧
    (touchboost_freq_show (Globals.mk 1 3000000000 40)).buf
      ≠ "3000000000 - Touchboost frequency\n".toList ∧
    touchboost_freq_store 2147483647
        (some [cpufreq_frequency_table.mk 0 300000,
          cpufreq_frequency_table.mk 1 CPUFREQ_ENTRY_INVALID,
          cpufreq_frequency_table.mk 2 CPUFREQ_TABLE_END])
        (Globals.mk 1 300000 40) (decimal 4294967295) 10
      = some (StoreResult.mk 10 (Globals.mk 1 4294967295 40)
          [Event.get_table 0,
            Event.pr_debug "Touchboost switch: frequency for touch boost found"]) ∧
    (touchboost_freq_show (Globals.mk 1 4294967295 40)).buf
      = "-1 - Touchboost frequency\n".toList := by
  decide

/-- C9 holds but for the printed value: every `show` handler returns a positive
length, the length of its text, and leaves the three tunables as they are; the
text, however, shows the tunable as an `int`. With `input_boost_freq` at
4294967295 (committed by writing `-1` against a table with a
`CPUFREQ_ENTRY_INVALID` row) `touchboost_freq_show` prints `-1`, a text that
does not contain 4294967295. -/
theorem show_prints_tunable_as_signed :
    (∀ g : Globals,
      (0 < (touchboost_switch_show g).ret ∧
        (touchboost_switch_show g).ret = ((touchboost_switch_show g).buf.length : Nat) ∧
        (touchboost_switch_show g).globals = g) ∧
      (0 < (touchboost_freq_show g).ret ∧
        (touchboost_freq_show g).ret = ((touchboost_freq_show g).buf.length : Nat) ∧
        (touchboost_freq_show g).globals = g) ∧
      (0 < (touchboost_ms_show g).ret ∧
        (touchboost_ms_show g).ret = ((touchboost_ms_show g).buf.length : Nat) ∧
        (touchboost_ms_show g).globals = g)) ∧
    touchboost_freq_store 2147483647
        (some [cpufreq_frequency_table.mk 0 300000,
          cpufreq_frequency_table.mk 1 CPUFREQ_ENTRY_INVALID,
          cpufreq_frequency_table.mk 2 CPUFREQ_TABLE_END])
        (Globals.mk 1 300000 40) "-1".toList 2
      = some (StoreResult.mk 2 (Globals.mk 1 4294967295 40)
          [Event.get_table 0,
            Event.pr_debug "Touchboost switch: frequency for touch boost found"]) ∧
    (touchboost_freq_show (Globals.mk 1 4294967295 40)).buf
      = "-1 - Touchboost frequency\n".toList ∧
    (touchboost_freq_show (Globals.mk 1 4294967295 40)).ret = 26 ∧
    ¬ (decimal 4294967295 <:+: (touchboost_freq_show (Globals.mk 1 4294967295 40)).buf) := by
  refine ⟨?_, by decide, by decide, by decide, by decide⟩
  intro g
  refine ⟨⟨?_, rfl, rfl⟩, ⟨?_, rfl, rfl⟩, ⟨?_, rfl, rfl⟩⟩
  · simp only [touchboost_switch_show, List.length_append]
    have : 0 < "Touchboost status: ".toList.length := by decide
    omega
  · simp only [touchboost_freq_show, List.length_append]
    have : 0 < " - Touchboost frequency\n".toList.length := by decide
    omega
  · simp only [touchboost_ms_show, List.length_append]
    have : 0 < " - Touchboost impulse length (ms)\n".toList.length := by decide
    omega

/-- C10: the domain of the store is invariant. From a state with
`input_boost_status` 0 or 1 and `input_boost_ms` at most 10000, any finite
sequence of calls of the six handlers, whatever the payloads and tables, ends
in such a state; and after the sequence every tunable holds the value of the
last accepted write to it, or its initial value when no write to it was
accepted. The sequence runs to its end whenever every table handed out is
unavailable or terminated. -/
theorem domain_invariant_of_runs (SSIZE_MAX : Nat) (g : Globals) (cs : List Call) :
    (∀ g1, run SSIZE_MAX g cs = some g1 →
      (domain_ok g → domain_ok g1) ∧
      g1.input_boost_status = last_accepted accepted_status g.input_boost_status cs ∧
      g1.input_boost_freq = last_accepted accepted_freq g.input_boost_freq cs ∧
      g1.input_boost_ms = last_accepted accepted_ms g.input_boost_ms cs) ∧
    ((∀ c ∈ cs, well_formed c) → ∃ g1, run SSIZE_MAX g cs = some g1) := by
  refine ⟨?_, run_returns SSIZE_MAX cs g⟩
  intro g1 h
  obtain ⟨h1, h2, h3, h4⟩ := run_commits SSIZE_MAX cs g g1 h
  exact ⟨h4, h1, h2, h3⟩

/-- Witness for C10: from `(1, 300000, 40)` the calls "write 7 to the switch"
(rejected), "write 0 to the switch", "write 20000 to the duration" (rejected),
"write 600000 to the level", "read the duration" end in `(0, 600000, 40)`. -/
theorem domain_invariant_of_runs_witness :
    domain_ok (Globals.mk 1 300000 40) ∧
    run 2147483647 (Globals.mk 1 300000 40)
      [Call.switch_store "7".toList 1, Call.switch_store "0".toList 1,
        Call.ms_store "20000".toList 5,
        Call.freq_store (some [cpufreq_frequency_table.mk 0 600000,
          cpufreq_frequency_table.mk 1 CPUFREQ_TABLE_END]) "600000".toList 6,
        Call.ms_show] = some (Globals.mk 0 600000 40) ∧
    domain_ok (Globals.mk 0 600000 40) :=
  ⟨by decide, by decide,
    ((domain_invariant_of_runs 2147483647 (Globals.mk 1 300000 40)
      [Call.switch_store "7".toList 1, Call.switch_store "0".toList 1,
        Call.ms_store "20000".toList 5,
        Call.freq_store (some [cpufreq_frequency_table.mk 0 600000,
          cpufreq_frequency_table.mk 1 CPUFREQ_TABLE_END]) "600000".toList 6,
        Call.ms_show]).1 (Globals.mk 0 600000 40) (by decide)).1 (by decide)⟩

/-! ## Further facts for the scan and the frame -/

theorem freq_accepted_mem (rows : List cpufreq_frequency_table) (buf : List Char) (v : Nat)
    (h : freq_accepted (some rows) buf = some v) : v ∈ legal_levels rows := by
  simp only [freq_accepted] at h
  split_ifs at h with hc
  cases h
  exact hc.2

/-- An accepted write never commits the end-of-table marker: when
`input_boost_freq` is the marker after a call, it was the marker before. -/
theorem freq_store_keeps_off_table_end (M : Nat) (table : Option (List cpufreq_frequency_table))
    (g : Globals) (buf : List Char) (count : Nat) (r : StoreResult)
    (hr : touchboost_freq_store M table g buf count = some r)
    (hend : r.globals.input_boost_freq = CPUFREQ_TABLE_END) :
    g.input_boost_freq = CPUFREQ_TABLE_END := by
  cases hacc : freq_accepted table buf with
  | none =>
    rw [(freq_store_of_rejected M table g buf count hacc r hr).2] at hend
    exact hend
  | some v =>
    cases table with
    | none => simp [freq_accepted] at hacc
    | some rows =>
      have hmem := freq_accepted_mem rows buf v hacc
      rw [freq_store_of_accepted M (some rows) g buf count v hacc] at hr
      cases hr
      simp only at hend
      rw [hend] at hmem
      exact absurd hmem (not_mem_legal_levels_end rows)

/-- The scan of a table with a marker at offset `n`, entered at index `i`: it
reads the indices `i` to `i + m` for some `m ≤ n`, no row before offset `m` is a
marker or a match, and the row at offset `m` is either the marker, where the
scan ends, or a match, where the scan has found the value. -/
theorem freq_scan_spec (input : Nat) :
    ∀ (rows : List cpufreq_frequency_table) (i n : Nat) (row_n : cpufreq_frequency_table),
      rows[n]? = some row_n → row_n.frequency = CPUFREQ_TABLE_END →
      ∃ m, m ≤ n ∧ freq_scan_reads input rows i = List.range' i (m + 1) ∧
        (∀ k r, k < m → rows[k]? = some r →
          r.frequency ≠ CPUFREQ_TABLE_END ∧ r.frequency ≠ input) ∧
        ∃ r, rows[m]? = some r ∧
          ((r.frequency = CPUFREQ_TABLE_END ∧ freq_scan input rows i = Scan.table_end (i + m)) ∨
            (r.frequency ≠ CPUFREQ_TABLE_END ∧ r.frequency = input ∧
              freq_scan input rows i = Scan.found (i + m))) := by
  intro rows
  induction rows with
  | nil => intro i n row_n hn _; simp at hn
  | cons row rows ih =>
    intro i n row_n hn hend
    by_cases h1 : row.frequency = CPUFREQ_TABLE_END
    · refine ⟨0, Nat.zero_le n, ?_, ?_, row, List.getElem?_cons_zero, Or.inl ⟨h1, ?_⟩⟩
      · rw [freq_scan_reads, if_pos h1]
        rfl
      · intro k r hk; omega
      · rw [freq_scan, if_pos h1]
        rfl
    · by_cases h2 : row.frequency = input
      · refine ⟨0, Nat.zero_le n, ?_, ?_, row, List.getElem?_cons_zero, Or.inr ⟨h1, h2, ?_⟩⟩
        · rw [freq_scan_reads, if_neg h1, if_pos h2]
          rfl
        · intro k r hk; omega
        · rw [freq_scan, if_neg h1, if_pos h2]
          rfl
      · cases n with
        | zero =>
          simp only [List.getElem?_cons_zero, Option.some.injEq] at hn
          subst hn
          exact absurd hend h1
        | succ n1 =>
          simp only [List.getElem?_cons_succ] at hn
          obtain ⟨m, hm, hreads, hbefore, r, hr, hcase⟩ := ih (i + 1) n1 row_n hn hend
          refine ⟨m + 1, by omega, ?_, ?_, r, ?_, ?_⟩
          · simp only [freq_scan_reads, h1, h2, if_false, hreads]
            rfl
          · intro k r1 hk hk1
            cases k with
            | zero =>
              simp only [List.getElem?_cons_zero, Option.some.injEq] at hk1
              subst hk1
              exact ⟨h1, h2⟩
            | succ k1 =>
              simp only [List.getElem?_cons_succ] at hk1
              exact hbefore k1 r1 (by omega) hk1
          · simp only [List.getElem?_cons_succ]
            exact hr
          · have hidx : i + 1 + m = i + (m + 1) := by omega
            simp only [freq_scan, h1, h2, if_false]
            rw [← hidx]
            exact hcase

/-! ## The claims, continued -/

/-- C12: frame of an accepted write. An accepted write through
`touchboost_switch_store` commits its value to `input_boost_status`, one
through `touchboost_freq_store` to `input_boost_freq`, one through
`touchboost_ms_store` to `input_boost_ms`, and the other two tunables keep
their values; in fact no write at all, accepted or not, changes a tunable of
another attribute. -/
theorem accepted_write_frame (SSIZE_MAX : Nat) (g : Globals) (buf : List Char) (count : Nat)
    (table : Option (List cpufreq_frequency_table)) :
    ((∀ v, switch_accepted buf = some v →
        (touchboost_switch_store SSIZE_MAX g buf count).globals
          = Globals.mk v g.input_boost_freq g.input_boost_ms) ∧
      (touchboost_switch_store SSIZE_MAX g buf count).globals.input_boost_freq
        = g.input_boost_freq ∧
      (touchboost_switch_store SSIZE_MAX g buf count).globals.input_boost_ms
        = g.input_boost_ms) ∧
    ((∀ v, freq_accepted table buf = some v →
        ∃ r, touchboost_freq_store SSIZE_MAX table g buf count = some r ∧
          r.globals = Globals.mk g.input_boost_status v g.input_boost_ms) ∧
      (∀ r, touchboost_freq_store SSIZE_MAX table g buf count = some r →
        r.globals.input_boost_status = g.input_boost_status ∧
        r.globals.input_boost_ms = g.input_boost_ms)) ∧
    ((∀ v, ms_accepted buf = some v →
        (touchboost_ms_store SSIZE_MAX g buf count).globals
          = Globals.mk g.input_boost_status g.input_boost_freq v) ∧
      (touchboost_ms_store SSIZE_MAX g buf count).globals.input_boost_status
        = g.input_boost_status ∧
      (touchboost_ms_store SSIZE_MAX g buf count).globals.input_boost_freq
        = g.input_boost_freq) := by
  refine ⟨⟨?_, ?_⟩, ⟨?_, ?_⟩, ⟨?_, ?_⟩⟩
  · intro v hv
    rw [(switch_store_of_accepted SSIZE_MAX g buf count v hv).1]
  · cases hacc : switch_accepted buf with
    | none =>
      rw [(switch_store_of_rejected SSIZE_MAX g buf count hacc).2]
      exact ⟨rfl, rfl⟩
    | some v =>
      rw [(switch_store_of_accepted SSIZE_MAX g buf count v hacc).1]
      exact ⟨rfl, rfl⟩
  · intro v hv
    exact ⟨_, freq_store_of_accepted SSIZE_MAX table g buf count v hv, rfl⟩
  · intro r hr
    cases hacc : freq_accepted table buf with
    | none =>
      rw [(freq_store_of_rejected SSIZE_MAX table g buf count hacc r hr).2]
      exact ⟨rfl, rfl⟩
    | some v =>
      rw [freq_store_of_accepted SSIZE_MAX table g buf count v hacc] at hr
      cases hr
      exact ⟨rfl, rfl⟩
  · intro v hv
    rw [(ms_store_of_accepted SSIZE_MAX g buf count v hv).1]
  · cases hacc : ms_accepted buf with
    | none =>
      rw [(ms_store_of_rejected SSIZE_MAX g buf count hacc).2]
      exact ⟨rfl, rfl⟩
    | some v =>
      rw [(ms_store_of_accepted SSIZE_MAX g buf count v hacc).1]
      exact ⟨rfl, rfl⟩

/-- Witness for C12: writing `600000` to `touchboost_freq` with the tunables at
`(1, 300000, 40)` leaves `(1, 600000, 40)`. -/
theorem accepted_write_frame_witness :
    freq_accepted (some [cpufreq_frequency_table.mk 0 300000,
      cpufreq_frequency_table.mk 1 600000, cpufreq_frequency_table.mk 2 CPUFREQ_TABLE_END])
      "600000".toList = some 600000 ∧
    ∃ r, touchboost_freq_store 2147483647 (some [cpufreq_frequency_table.mk 0 300000,
        cpufreq_frequency_table.mk 1 600000, cpufreq_frequency_table.mk 2 CPUFREQ_TABLE_END])
        (Globals.mk 1 300000 40) "600000".toList 6 = some r ∧
      r.globals = Globals.mk 1 600000 40 :=
  ⟨by decide,
    (accepted_write_frame 2147483647 (Globals.mk 1 300000 40) "600000".toList 6
      (some [cpufreq_frequency_table.mk 0 300000, cpufreq_frequency_table.mk 1 600000,
        cpufreq_frequency_table.mk 2 CPUFREQ_TABLE_END])).2.1.1 600000 (by decide)⟩

/-- C13 fails for the placeholder: against a terminated table with a
`CPUFREQ_ENTRY_INVALID` row the payloads `-1` and `4294967295` are accepted and
`input_boost_freq` becomes 4294967295, which is `CPUFREQ_ENTRY_INVALID`; the
loop compares every row before the marker and skips none. The marker itself is
not committed: the payload `-2`, which is `CPUFREQ_TABLE_END`, is rejected. -/
theorem freq_store_commits_entry_invalid :
    terminated [cpufreq_frequency_table.mk 0 300000,
      cpufreq_frequency_table.mk 1 CPUFREQ_ENTRY_INVALID,
      cpufreq_frequency_table.mk 2 600000, cpufreq_frequency_table.mk 3 CPUFREQ_TABLE_END] ∧
    touchboost_freq_store 2147483647
        (some [cpufreq_frequency_table.mk 0 300000,
          cpufreq_frequency_table.mk 1 CPUFREQ_ENTRY_INVALID,
          cpufreq_frequency_table.mk 2 600000, cpufreq_frequency_table.mk 3 CPUFREQ_TABLE_END])
        (Globals.mk 1 300000 40) "-1".toList 2
      = some (StoreResult.mk 2 (Globals.mk 1 CPUFREQ_ENTRY_INVALID 40)
          [Event.get_table 0,
            Event.pr_debug "Touchboost switch: frequency for touch boost found"]) ∧
    touchboost_freq_store 2147483647
        (some [cpufreq_frequency_table.mk 0 300000,
          cpufreq_frequency_table.mk 1 CPUFREQ_ENTRY_INVALID,
          cpufreq_frequency_table.mk 2 600000, cpufreq_frequency_table.mk 3 CPUFREQ_TABLE_END])
        (Globals.mk 1 300000 40) "4294967295".toList 10
      = some (StoreResult.mk 10 (Globals.mk 1 CPUFREQ_ENTRY_INVALID 40)
          [Event.get_table 0,
            Event.pr_debug "Touchboost switch: frequency for touch boost found"]) ∧
    CPUFREQ_ENTRY_INVALID = 4294967295 ∧
    sscanf_d "-2".toList 0 = (1, CPUFREQ_TABLE_END) ∧
    touchboost_freq_store 2147483647
        (some [cpufreq_frequency_table.mk 0 300000,
          cpufreq_frequency_table.mk 1 CPUFREQ_ENTRY_INVALID,
          cpufreq_frequency_table.mk 2 600000, cpufreq_frequency_table.mk 3 CPUFREQ_TABLE_END])
        (Globals.mk 1 300000 40) "-2".toList 2
      = some (StoreResult.mk (-22) (Globals.mk 1 300000 40)
          [Event.get_table 0,
            Event.pr_err "Touchboost switch: invalid frequency requested"]) := by
  decide

/-- C14: the scan is total and in bounds. For a table with an end-of-table
marker at index `n` and a payload that parses to `input`, the loop reads the
indices 0 to `m` for some `m ≤ n`, all inside the table, and no row before
index `m` is a marker or a match: either the row at `m` is the first marker and
the handler returns `-EINVAL` with the invalid-frequency message, or it is the
first match and the handler commits `input` and returns the byte count. -/
theorem freq_scan_total_in_bounds (SSIZE_MAX : Nat) (rows : List cpufreq_frequency_table)
    (n : Nat) (row_n : cpufreq_frequency_table) (g : Globals) (buf : List Char)
    (count input : Nat) (hn : rows[n]? = some row_n)
    (hend : row_n.frequency = CPUFREQ_TABLE_END) (hparse : sscanf_d buf 0 = (1, input)) :
    ∃ m, m ≤ n ∧ freq_scan_reads input rows 0 = List.range' 0 (m + 1) ∧
      (∀ k ∈ freq_scan_reads input rows 0, k ≤ n ∧ k < rows.length) ∧
      (∀ k r, k < m → rows[k]? = some r →
        r.frequency ≠ CPUFREQ_TABLE_END ∧ r.frequency ≠ input) ∧
      ∃ r, rows[m]? = some r ∧
        ((r.frequency = CPUFREQ_TABLE_END ∧ freq_scan input rows 0 = Scan.table_end m ∧
            touchboost_freq_store SSIZE_MAX (some rows) g buf count
              = some (StoreResult.mk (-(EINVAL : Int)) g
                  [Event.get_table 0,
                    Event.pr_err "Touchboost switch: invalid frequency requested"])) ∨
          (r.frequency ≠ CPUFREQ_TABLE_END ∧ r.frequency = input ∧
            freq_scan input rows 0 = Scan.found m ∧
            touchboost_freq_store SSIZE_MAX (some rows) g buf count
              = some (StoreResult.mk (ssize_of_size SSIZE_MAX count)
                  (Globals.mk g.input_boost_status input g.input_boost_ms)
                  [Event.get_table 0,
                    Event.pr_debug "Touchboost switch: frequency for touch boost found"]))) := by
  obtain ⟨m, hm, hreads, hbefore, r, hr, hcase⟩ := freq_scan_spec input rows 0 n row_n hn hend
  have hlen : m < rows.length := by
    by_contra hge
    rw [List.getElem?_eq_none (by omega)] at hr
    cases hr
  refine ⟨m, hm, hreads, ?_, hbefore, r, hr, ?_⟩
  · intro k hk
    rw [hreads, List.mem_range'_1] at hk
    omega
  · rw [Nat.zero_add] at hcase
    rcases hcase with ⟨h1, hscan⟩ | ⟨h1, h2, hscan⟩
    · refine Or.inl ⟨h1, hscan, ?_⟩
      simp only [touchboost_freq_store, hparse, ne_eq, not_true_eq_false, if_false, hscan]
    · refine Or.inr ⟨h1, h2, hscan, ?_⟩
      simp only [touchboost_freq_store, hparse, ne_eq, not_true_eq_false, if_false, hscan]

/-- Witness for C14: in the table 300000, 600000, marker, 900000 the scan for
600000 reads the indices 0 and 1 and stops at the match; the row after the
marker is never read. -/
theorem freq_scan_total_in_bounds_witness :
    [cpufreq_frequency_table.mk 0 300000, cpufreq_frequency_table.mk 1 600000,
      cpufreq_frequency_table.mk 2 CPUFREQ_TABLE_END, cpufreq_frequency_table.mk 3 900000][2]?
      = some (cpufreq_frequency_table.mk 2 CPUFREQ_TABLE_END) ∧
    sscanf_d "600000".toList 0 = (1, 600000) ∧
    freq_scan_reads 600000 [cpufreq_frequency_table.mk 0 300000,
      cpufreq_frequency_table.mk 1 600000, cpufreq_frequency_table.mk 2 CPUFREQ_TABLE_END,
      cpufreq_frequency_table.mk 3 900000] 0 = [0, 1] ∧
    ∀ k ∈ freq_scan_reads 600000 [cpufreq_frequency_table.mk 0 300000,
      cpufreq_frequency_table.mk 1 600000, cpufreq_frequency_table.mk 2 CPUFREQ_TABLE_END,
      cpufreq_frequency_table.mk 3 900000] 0, k ≤ 2 ∧ k < 4 :=
  ⟨by decide, by decide, by decide,
    (freq_scan_total_in_bounds 2147483647 [cpufreq_frequency_table.mk 0 300000,
      cpufreq_frequency_table.mk 1 600000, cpufreq_frequency_table.mk 2 CPUFREQ_TABLE_END,
      cpufreq_frequency_table.mk 3 900000] 2 (cpufreq_frequency_table.mk 2 CPUFREQ_TABLE_END)
      (Globals.mk 1 300000 40) "600000".toList 6 600000 (by decide) (by decide)
      (by decide)).choose_spec.2.2.1⟩

/-- C15: `touchboost_switch_init` returns 0 whatever `misc_register` and
`sysfs_create_group` return; when `sysfs_create_group` returns a negative error
the failure is logged and 0 is returned all the same. -/
theorem touchboost_switch_init_returns_zero :
    (∀ misc_register_ret sysfs_create_group_ret : Int,
      (touchboost_switch_init misc_register_ret sysfs_create_group_ret).ret = 0) ∧
    touchboost_switch_init (-16) (-12)
      = InitResult.mk 0
          [InitEvent.misc_register (-16), InitEvent.sysfs_create_group (-12),
            InitEvent.pr_err
              "Touchboost switch: failed to create touchboost switch sys fs object.\n"] ∧
    touchboost_switch_init 0 0
      = InitResult.mk 0
          [InitEvent.misc_register 0, InitEvent.sysfs_create_group 0,
            InitEvent.pr_info "Touchboost switch: device initialized\n"] := by
  refine ⟨?_, by decide, by decide⟩
  intro m s
  unfold touchboost_switch_init
  split_ifs <;> rfl

end Touchboost
